import Mathlib

/-!
Shallow embedding of the telegram-chatook bridge (TypeScript) in Lean 4.

The embedding models:
  * JSON values and the JavaScript truthiness / strict-equality / field-access
    semantics that `src/chatwoot/api.ts` relies on;
  * the Chatwoot HTTP client operations (`createContact`, `updateContact`,
    `createConversation`, `createMessage`) as functions over an abstract remote
    oracle (a deterministic map from requests to responses), threading an
    explicit trace of the requests issued;
  * the inbound forwarder (`forwardToCharwoot` and the Telegram message
    handler from `src/telegram/client.ts`), the Chatwoot webhook handler and
    the `/telegram/send-channel` endpoint from `src/server.ts`, and the local
    failure store (`src/storage/failureStore.ts`).
-/

namespace Chatook

/-- JSON values as seen by the JavaScript code.  `null` also stands for
JavaScript `undefined` (an absent object field); the code under study only
distinguishes them through truthiness, where both are falsy. -/
inductive Json where
  | null : Json
  | bool : Bool → Json
  | num : Int → Json
  | str : String → Json
  | arr : List Json → Json
  | obj : List (String × Json) → Json
deriving Repr, BEq

/-- Field lookup in an object field list: first binding wins. -/
def getField : List (String × Json) → String → Json
  | [], _ => Json.null
  | (k', v) :: rest, k => if k' == k then v else getField rest k

/-- `j.get k` models the JavaScript optional-chained field access `j?.k`:
`undefined` on non-objects and missing keys. -/
def Json.get : Json → String → Json
  | .obj fields, k => getField fields k
  | _, _ => Json.null

/-- JavaScript truthiness of a JSON value. -/
def jsTruthy : Json → Bool
  | .null => false
  | .bool b => b
  | .num n => n != 0
  | .str s => !s.isEmpty
  | .arr _ => true
  | .obj _ => true

/-- JavaScript `a || b` on JSON values: the first operand if truthy, else the
second. -/
def jsOr (a b : Json) : Json := if jsTruthy a then a else b

/-- Strict equality `j === n` between a JSON value and a number. -/
def jsEqNum (j : Json) (n : Int) : Bool :=
  match j with
  | .num m => m == n
  | _ => false

/-- Strict equality `j === s` between a JSON value and an optional string
(`none` standing for `undefined`; `undefined === undefined` is true). -/
def strictEqStr (j : Json) (s : Option String) : Bool :=
  match j, s with
  | .str a, some b => a == b
  | .null, none => true
  | _, _ => false

/-- `j?.[0]` on a JSON value: first element of an array, else `undefined`. -/
def jsIdx0 : Json → Json
  | .arr xs => xs.headD Json.null
  | _ => Json.null

/-- Whether an object value carries a given top-level key. -/
def Json.hasKey (j : Json) (k : String) : Bool :=
  match j with
  | .obj fs => fs.any (fun p => p.1 == k)
  | _ => false

/-- `String(j)` coercion as used for ids interpolated into request paths.
Arrays and objects are only coarsely modelled; the code applies this to
numeric or string ids. -/
def jsToString : Json → String
  | .str s => s
  | .num n => toString n
  | .bool b => if b then "true" else "false"
  | .null => "undefined"
  | .arr _ => ""
  | .obj _ => "[object Object]"

/-- Decimal digit list to integer value. -/
def digitsVal (ds : List Char) : Int :=
  ds.foldl (fun acc c => acc * 10 + ((c.toNat : Int) - ('0'.toNat : Int))) 0

/-- JavaScript `parseInt` on the decimal strings the bridge passes it
(`none` models `NaN`).  The call sites feed it stringified numeric ids, so
radix prefixes and leading whitespace are not modelled. -/
def parseIntJS (s : String) : Option Int :=
  let signRest : Int × List Char :=
    match s.data with
    | '-' :: cs => (-1, cs)
    | '+' :: cs => (1, cs)
    | cs => (1, cs)
  let ds := signRest.2.takeWhile Char.isDigit
  if ds.isEmpty then none else some (signRest.1 * digitsVal ds)

/-- Template-literal rendering of a possibly-`NaN` number. -/
def numStr : Option Int → String
  | some n => toString n
  | none => "NaN"

/-- A possibly-`NaN` number as a JSON body value (`JSON.stringify` serializes
`NaN` as `null`). -/
def numJson : Option Int → Json
  | some n => Json.num n
  | none => Json.null

/-- `sub` occurs as a prefix of `l`. -/
def listHasPrefix : List Char → List Char → Bool
  | [], _ => true
  | _ :: _, [] => false
  | a :: as, b :: bs => a == b && listHasPrefix as bs

/-- `sub` occurs as an infix of `l`. -/
def listInfix (sub : List Char) : List Char → Bool
  | [] => sub.isEmpty
  | c :: cs => listHasPrefix sub (c :: cs) || listInfix sub cs

/-- JavaScript `s.includes(sub)`. -/
def strContainsSub (s sub : String) : Bool := listInfix sub.data s.data

/-- JavaScript `s.trim()`: strip leading and trailing whitespace (modelled
with `Char.isWhitespace`, which covers the whitespace forms the bridge
meets).  Structurally recursive, unlike `String.trim`, so that concrete
witnesses evaluate in the kernel. -/
def trimJS (s : String) : String :=
  String.mk (((s.data.dropWhile Char.isWhitespace).reverse.dropWhile Char.isWhitespace).reverse)

/-- JavaScript `s.startsWith(pre)`. -/
def startsWithJS (s pre : String) : Bool := listHasPrefix pre.data s.data

/-- `j?.includes(sub)` where the field is expected to be a string; on a
non-string the chain yields a falsy/undefined result in the situations the
code reaches. -/
def jsonStrIncludes (j : Json) (sub : String) : Bool :=
  match j with
  | .str s => strContainsSub s sub
  | _ => false

/-- Lowercase hex digit for a value below 16. -/
def hexDigit (n : Nat) : Char :=
  if n < 10 then Char.ofNat ('0'.toNat + n) else Char.ofNat ('A'.toNat + (n - 10))

/-- `encodeURIComponent`, modelled per character; multi-byte code points are
only coarsely modelled (the bridge encodes identifiers made of unreserved
ASCII characters such as `telegram_12345`). -/
def encodeURIComponentChar (c : Char) : String :=
  if c.isAlphanum || c == '-' || c == '_' || c == '.' || c == '!' || c == '~'
      || c == '*' || c == '(' || c == ')' || c.toNat == 39 then
    String.singleton c
  else
    "%" ++ String.mk [hexDigit (c.toNat / 16 % 16), hexDigit (c.toNat % 16)]

def encodeURIComponent (s : String) : String :=
  String.join (s.data.map encodeURIComponentChar)

/-- An HTTP-level error thrown by the `request` helper on a non-2xx
response: it carries the status, status text and the parsed error body. -/
structure HErr where
  status : Nat
  statusText : String
  data : Json
deriving Repr, BEq

/-- Errors propagating out of the Chatwoot client: either the `request`
helper's HTTP error or a plain `Error(message)` thrown by the client itself
(e.g. an unrecognized response shape). -/
inductive CwErr where
  | http : HErr → CwErr
  | unexpected : String → CwErr
deriving Repr, BEq

/-- `error.message` of a thrown error: the `request` helper formats HTTP
errors as "Chatwoot API error: status statusText". -/
def errMessage : CwErr → String
  | .http e => "Chatwoot API error: " ++ toString e.status ++ " " ++ e.statusText
  | .unexpected m => m

/-- HTTP method of a request issued by the client. -/
inductive Method where
  | get | post | put
deriving Repr, BEq

/-- One HTTP request issued by the client: method, path (relative to the
base URL), and JSON body for POST/PUT. -/
structure Req where
  method : Method
  path : String
  body : Option Json
deriving Repr, BEq

/-- The remote Chatwoot server, abstracted as a deterministic map from
requests to either a parsed JSON success payload or an HTTP error. -/
def Oracle : Type := Req → Except HErr Json

/-- The trace of requests issued so far, in order. -/
abbrev Trace := List Req

/-- Effectful client computations: explicit state passing of the request
trace, with `Except`-style failure that preserves the trace. -/
def M (α : Type) : Type := Trace → Except CwErr α × Trace

def mPure {α : Type} (a : α) : M α := fun t => (.ok a, t)

def mThrow {α : Type} (e : CwErr) : M α := fun t => (.error e, t)

def mBind {α β : Type} (x : M α) (f : α → M β) : M β := fun t =>
  match x t with
  | (.ok a, t') => f a t'
  | (.error e, t') => (.error e, t')

/-- `try x catch e => h e`. -/
def mCatch {α : Type} (x : M α) (h : CwErr → M α) : M α := fun t =>
  match x t with
  | (.ok a, t') => (.ok a, t')
  | (.error e, t') => h e t'

/-- One call through the `request` helper: records the request in the trace
and converts a non-2xx response into a thrown `CwErr.http`. -/
def doRequest (o : Oracle) (r : Req) : M Json := fun t =>
  match o r with
  | .ok j => (.ok j, t ++ [r])
  | .error e => (.error (.http e), t ++ [r])

end Chatook

namespace Chatook

/-! ## Request builders (endpoint paths from `src/chatwoot/api.ts`) -/

def acctPrefix (acct : String) : String := "/api/v1/accounts/" ++ acct

/-- `GET /conversations?inbox_id=…&status=all&page=…`. -/
def convListInboxReq (acct : String) (inb : Option Int) (page : Nat) : Req :=
  ⟨.get, acctPrefix acct ++ "/conversations?inbox_id=" ++ numStr inb
      ++ "&status=all&page=" ++ toString page, none⟩

/-- `GET /conversations?status=all&page=…` (no inbox filter). -/
def convListAllReq (acct : String) (page : Nat) : Req :=
  ⟨.get, acctPrefix acct ++ "/conversations?status=all&page=" ++ toString page, none⟩

/-- `GET /conversations/{id}` (conversation detail). -/
def convDetailReq (acct : String) (idStr : String) : Req :=
  ⟨.get, acctPrefix acct ++ "/conversations/" ++ idStr, none⟩

/-- `POST /conversations`. -/
def convCreateReq (acct : String) (body : Json) : Req :=
  ⟨.post, acctPrefix acct ++ "/conversations", some body⟩

/-- `GET /conversations?contact_id=…&status=all`. -/
def convByContactReq (acct : String) (cid : Option Int) : Req :=
  ⟨.get, acctPrefix acct ++ "/conversations?contact_id=" ++ numStr cid ++ "&status=all", none⟩

/-- `POST /contacts`. -/
def contactCreateReq (acct : String) (body : Json) : Req :=
  ⟨.post, acctPrefix acct ++ "/contacts", some body⟩

/-- `GET /contacts/search?q=…`. -/
def contactSearchReq (acct : String) (q : String) : Req :=
  ⟨.get, acctPrefix acct ++ "/contacts/search?q=" ++ q, none⟩

/-- `GET /contacts?identifier=…`. -/
def contactByIdentifierReq (acct : String) (q : String) : Req :=
  ⟨.get, acctPrefix acct ++ "/contacts?identifier=" ++ q, none⟩

/-- `PUT /contacts/{parseInt(String(contactId))}`. -/
def contactUpdateReq (acct : String) (cid : Option Int) (body : Json) : Req :=
  ⟨.put, acctPrefix acct ++ "/contacts/" ++ numStr cid, some body⟩

/-- `POST /conversations/{conversationId}/messages`. -/
def messageCreateReq (acct : String) (convId : String) (body : Json) : Req :=
  ⟨.post, acctPrefix acct ++ "/conversations/" ++ convId ++ "/messages", some body⟩

/-! ## `updateContact` -/

/-- Argument object of `updateContact` (`{ name?, phone_number? }`). -/
structure UpdateData where
  name : Option String
  phone_number : Option String

/-- Body assembled by `updateContact`: a field is sent only when the input is
a string that is non-blank after trimming, and it is sent trimmed. -/
def updateBody (d : UpdateData) : List (String × Json) :=
  (match d.name with
   | some s => if 0 < (trimJS s).length then [("name", Json.str (trimJS s))] else []
   | none => []) ++
  (match d.phone_number with
   | some s => if 0 < (trimJS s).length then [("phone_number", Json.str (trimJS s))] else []
   | none => [])

/-- `ChatwootAPI.updateContact`. -/
def updateContact (o : Oracle) (acct : String) (contactId : String) (d : UpdateData) : M Json :=
  let body := updateBody d
  if body.isEmpty then mPure (Json.obj [("ok", Json.bool true)]) -- nothing to update
  else
    mBind (doRequest o (contactUpdateReq acct (parseIntJS contactId) (Json.obj body))) fun resp =>
    if jsTruthy (resp.get "contact") then mPure (resp.get "contact")
    else if jsTruthy ((resp.get "payload").get "contact") then mPure ((resp.get "payload").get "contact")
    else mPure resp

/-! ## `createContact` -/

/-- Argument object of `createContact` (`{ name?, phone_number?, identifier? }`). -/
structure ContactData where
  name : Option String
  phone_number : Option String
  identifier : Option String

/-- JavaScript `a || b` on optional strings (empty string is falsy). -/
def optStrOr (a b : Option String) : Option String :=
  match a with
  | some s => if s.isEmpty then b else some s
  | none => b

/-- Body of the contact-creation POST: `{name: data.name || data.identifier,
phone_number, identifier}`, with `undefined` fields dropped by
`JSON.stringify`. -/
def contactCreateBody (d : ContactData) : Json :=
  Json.obj
    ((match optStrOr d.name d.identifier with
      | some s => [("name", Json.str s)]
      | none => []) ++
     (match d.phone_number with
      | some s => [("phone_number", Json.str s)]
      | none => []) ++
     (match d.identifier with
      | some s => [("identifier", Json.str s)]
      | none => []))

/-- `search?.payload?.[0] || search?.contacts?.[0]`. -/
def contactFoundOfSearch (s : Json) : Json :=
  jsOr (jsIdx0 (s.get "payload")) (jsIdx0 (s.get "contacts"))

/-- `byIdentifier?.payload?.[0] || byIdentifier?.contacts?.[0] || byIdentifier?.data?.[0]`. -/
def contactFoundOfList (b : Json) : Json :=
  jsOr (jsIdx0 (b.get "payload")) (jsOr (jsIdx0 (b.get "contacts")) (jsIdx0 (b.get "data")))

/-- Response unwrapping of `createContact`: contact / payload.contact /
payload / a direct object with an id, else the thrown
"Unexpected contact response" error. -/
def unwrapContact (resp : Json) : M Json :=
  if jsTruthy (resp.get "contact") then mPure (resp.get "contact")
  else if jsTruthy ((resp.get "payload").get "contact") then mPure ((resp.get "payload").get "contact")
  else if jsTruthy (resp.get "payload") then mPure (resp.get "payload")
  else if jsTruthy (resp.get "id") then mPure resp
  else mThrow (.unexpected "Unexpected contact response")

/-- `ChatwootAPI.createContact`: POST, unwrap, and on a 409/422 conflict fall
back to the search endpoint and then the identifier-filtered list; when both
yield nothing the original error is rethrown. -/
def createContact (o : Oracle) (acct : String) (d : ContactData) : M Json :=
  mCatch
    (mBind (doRequest o (contactCreateReq acct (contactCreateBody d))) unwrapContact)
    (fun error =>
      if strContainsSub (errMessage error) "409" || strContainsSub (errMessage error) "422" then
        let q := encodeURIComponent (d.identifier.getD "")
        mBind
          (mCatch
            (mBind (doRequest o (contactSearchReq acct q)) fun s =>
              mPure (contactFoundOfSearch s))
            (fun _ => mPure Json.null))  -- ignore
          fun f1 =>
        if jsTruthy f1 then mPure f1
        else
          mBind
            (mCatch
              (mBind (doRequest o (contactByIdentifierReq acct q)) fun b =>
                mPure (contactFoundOfList b))
              (fun _ => mPure Json.null))  -- ignore
            fun f2 =>
          if jsTruthy f2 then mPure f2 else mThrow error
      else mThrow error)

end Chatook

namespace Chatook

/-! ## `createConversation` -/

/-- Argument object of `createConversation`
(`{ contact_id, inbox_id, source_id? }`). -/
structure ConvData where
  contact_id : String
  inbox_id : String
  source_id : Option String

/-- `parseConversations`: unwrap the conversation list from any of the known
response shapes, in the source's priority order. -/
def parseConversations (raw : Json) : List Json :=
  match raw with
  | .arr xs => xs
  | _ =>
    match (raw.get "data").get "payload" with
    | .arr xs => xs
    | _ =>
      match raw.get "payload" with
      | .arr xs => xs
      | _ =>
        match raw.get "data" with
        | .arr xs => xs
        | _ =>
          match raw.get "conversations" with
          | .arr xs => xs
          | _ =>
            match (raw.get "meta").get "payload" with
            | .arr xs => xs
            | _ => []

/-- `matchesContact`: `(conv.contact_id || conv.contact?.id ||
conv.meta?.sender?.id) === contactIdNum` (a `NaN` contact id matches
nothing). -/
def matchesContact (cid : Option Int) (conv : Json) : Bool :=
  match cid with
  | some n =>
    jsEqNum
      (jsOr (conv.get "contact_id")
        (jsOr ((conv.get "contact").get "id") (((conv.get "meta").get "sender").get "id"))) n
  | none => false

/-- The source-tag chain checked by `matchesSourceId` at list level:
`conv.source_id || conv.contact_inbox?.source_id ||
conv.additional_attributes?.source_id ||
conv.meta?.sender?.additional_attributes?.source_id`. -/
def listLevelTag (conv : Json) : Json :=
  jsOr (conv.get "source_id")
    (jsOr ((conv.get "contact_inbox").get "source_id")
      (jsOr ((conv.get "additional_attributes").get "source_id")
        ((((conv.get "meta").get "sender").get "additional_attributes").get "source_id")))

/-- `matchesSourceId`: strict string equality of the list-level tag chain
against `data.source_id`. -/
def matchesSourceId (sid : Option String) (conv : Json) : Bool :=
  strictEqStr (listLevelTag conv) sid

/-- The source-tag chain checked on a fetched conversation detail:
`detail?.source_id || detail?.additional_attributes?.source_id ||
detail?.contact_inbox?.source_id ||
detail?.meta?.sender?.additional_attributes?.source_id`. -/
def detailTag (d : Json) : Json :=
  jsOr (d.get "source_id")
    (jsOr ((d.get "additional_attributes").get "source_id")
      (jsOr ((d.get "contact_inbox").get "source_id")
        ((((d.get "meta").get "sender").get "additional_attributes").get "source_id")))

/-- `findExistingByContact`: paginate (pages 1..5) over the inbox's
conversations, return the first local contact match; stop on an empty page.
The page loop is embedded as structural recursion over the page list. -/
def findByContactPages (o : Oracle) (acct : String) (inb cid : Option Int) :
    List Nat → M (Option Json)
  | [] => mPure none
  | page :: rest =>
    mBind (doRequest o (convListInboxReq acct inb page)) fun list =>
    let convs := parseConversations list
    match convs.find? (matchesContact cid) with
    | some c => mPure (some c)
    | none => if convs.isEmpty then mPure none else findByContactPages o acct inb cid rest

/-- The source-conflict pagination (pages 1..5, no inbox filter), matching by
`matchesSourceId` at list level. -/
def sourceSearchPages (o : Oracle) (acct : String) (sid : Option String) :
    List Nat → M (Option Json)
  | [] => mPure none
  | page :: rest =>
    mBind (doRequest o (convListAllReq acct page)) fun list =>
    let convs := parseConversations list
    match convs.find? (matchesSourceId sid) with
    | some c => mPure (some c)
    | none => if convs.isEmpty then mPure none else sourceSearchPages o acct sid rest

/-- The deep-scan inner loop: fetch each conversation's detail
(`getConversation(String(c.id))`), return the first detail whose tag chain
strictly equals `data.source_id`; a failed detail fetch is logged and
skipped. -/
def deepScanList (o : Oracle) (acct : String) (sid : Option String) :
    List Json → M (Option Json)
  | [] => mPure none
  | c :: rest =>
    mBind
      (mCatch
        (mBind (doRequest o (convDetailReq acct (jsToString (c.get "id")))) fun detail =>
          mPure (if strictEqStr (detailTag detail) sid then some detail else none))
        (fun _ => mPure none))  -- detail fetch failed: log and continue
      fun r =>
    match r with
    | some d => mPure (some d)
    | none => deepScanList o acct sid rest

/-- The deep-scan pagination (pages 1..5): list without inbox filter, deep
scan each page's conversations, stop on an empty page. -/
def deepScanPages (o : Oracle) (acct : String) (sid : Option String) :
    List Nat → M (Option Json)
  | [] => mPure none
  | page :: rest =>
    mBind (doRequest o (convListAllReq acct page)) fun list =>
    let convs := parseConversations list
    mBind (deepScanList o acct sid convs) fun r =>
    match r with
    | some d => mPure (some d)
    | none => if convs.isEmpty then mPure none else deepScanPages o acct sid rest

/-- The contact-filtered fallback: list conversations by `contact_id`, first a
lightweight `matchesSourceId` pass, then the deep detail check. -/
def contactFilteredSearch (o : Oracle) (acct : String) (cid : Option Int)
    (sid : Option String) : M (Option Json) :=
  mBind (doRequest o (convByContactReq acct cid)) fun byContact =>
  let convs := parseConversations byContact
  match convs.find? (matchesSourceId sid) with
  | some c => mPure (some c)
  | none => deepScanList o acct sid convs

/-- The whole post-conflict search (the outer `try` of the conflict branch):
paginated list-level search, then deep scan, then the contact-filtered
search (with its own inner `catch`); any escaping error is caught and
treated as "not found". -/
def conflictSearch (o : Oracle) (acct : String) (cid : Option Int)
    (sid : Option String) : M (Option Json) :=
  mCatch
    (mBind (sourceSearchPages o acct sid [1, 2, 3, 4, 5]) fun r1 =>
      match r1 with
      | some c => mPure (some c)
      | none =>
        mBind (deepScanPages o acct sid [1, 2, 3, 4, 5]) fun r2 =>
        match r2 with
        | some c => mPure (some c)
        | none => mCatch (contactFilteredSearch o acct cid sid) (fun _ => mPure none))
    (fun _ => mPure none)

/-- Body of the conversation-creation POST: `{contact_id, inbox_id,
source_id, additional_attributes: {source_id}}` (`undefined` dropped by
`JSON.stringify`, `NaN` serialized as `null`). -/
def convCreateBody (cid inb : Option Int) (sid : Option String) : Json :=
  Json.obj
    ([("contact_id", numJson cid), ("inbox_id", numJson inb)] ++
     (match sid with
      | some s => [("source_id", Json.str s)]
      | none => []) ++
     [("additional_attributes",
       Json.obj (match sid with
        | some s => [("source_id", Json.str s)]
        | none => []))])

/-- Body of the last-resort creation retry: `source_id` intentionally
omitted at top level, `additional_attributes.source_id` kept. -/
def fallbackConvBody (cid inb : Option Int) (sid : Option String) : Json :=
  Json.obj
    [("contact_id", numJson cid), ("inbox_id", numJson inb),
     ("additional_attributes",
       Json.obj (match sid with
        | some s => [("source_id", Json.str s)]
        | none => []))]

/-- Response unwrapping of the conversation-creation POST. -/
def unwrapConversation (resp : Json) : M Json :=
  if jsTruthy (resp.get "conversation") then mPure (resp.get "conversation")
  else if jsTruthy ((resp.get "payload").get "conversation") then
    mPure ((resp.get "payload").get "conversation")
  else if jsTruthy (resp.get "id") then mPure resp
  else mThrow (.unexpected "Unexpected conversation response")

/-- `createErr.status === 422 && (errorData?.error?.includes("source_id") ||
errorData?.message?.includes("source_id"))`. -/
def isSourceIdConflict (e : CwErr) : Bool :=
  match e with
  | .http h =>
    h.status == 422 &&
      (jsonStrIncludes (h.data.get "error") "source_id" ||
       jsonStrIncludes (h.data.get "message") "source_id")
  | .unexpected _ => false

/-- The last-resort creation without `source_id`: returns the created
conversation when the unwrapped value has a truthy `id`, else nothing (the
caller then rethrows the original creation error). -/
def fallbackCreate (o : Oracle) (acct : String) (cid inb : Option Int)
    (sid : Option String) : M (Option Json) :=
  mBind (doRequest o (convCreateReq acct (fallbackConvBody cid inb sid))) fun resp =>
  let conv := jsOr (resp.get "conversation") (jsOr ((resp.get "payload").get "conversation") resp)
  if jsTruthy (conv.get "id") then mPure (some conv) else mPure none

/-- `ChatwootAPI.createConversation`: local search by contact over the
inbox's conversations (errors ignored), then creation with the source tag;
on a 422 `source_id` conflict, the broad search of `conflictSearch` and, as
a last resort, creation without the source tag; otherwise the creation
error is rethrown. -/
def createConversation (o : Oracle) (acct : String) (d : ConvData) : M Json :=
  let cid := parseIntJS d.contact_id
  let inb := parseIntJS d.inbox_id
  mBind (mCatch (findByContactPages o acct inb cid [1, 2, 3, 4, 5]) (fun _ => mPure none))
    fun existing =>
  match existing with
  | some c => mPure c
  | none =>
    mCatch
      (mBind (doRequest o (convCreateReq acct (convCreateBody cid inb d.source_id)))
        unwrapConversation)
      (fun createErr =>
        if isSourceIdConflict createErr then
          mBind (conflictSearch o acct cid d.source_id) fun r =>
          match r with
          | some c => mPure c
          | none =>
            mBind (mCatch (fallbackCreate o acct cid inb d.source_id) (fun _ => mPure none))
              fun f =>
            match f with
            | some c => mPure c
            | none => mThrow createErr
        else mThrow createErr)

/-! ## `createMessage` -/

/-- Body of the message-creation POST: `{content, message_type: data.message_type
|| "incoming", private: data.private || false}`. -/
def messageBody (content : String) (mtype : Option String) (priv : Option Bool) : Json :=
  Json.obj
    [("content", Json.str content),
     ("message_type", Json.str (match mtype with
       | some s => if s.isEmpty then "incoming" else s
       | none => "incoming")),
     ("private", Json.bool (priv.getD false))]

/-- `ChatwootAPI.createMessage`. -/
def createMessage (o : Oracle) (acct : String) (conversationId : String)
    (content : String) (mtype : Option String) (priv : Option Bool) : M Json :=
  mBind (doRequest o (messageCreateReq acct conversationId (messageBody content mtype priv)))
    fun resp =>
  if jsTruthy (resp.get "message") then mPure (resp.get "message")
  else if jsTruthy ((resp.get "payload").get "message") then mPure ((resp.get "payload").get "message")
  else mPure resp

end Chatook

namespace Chatook

/-! ## Failure store (`src/storage/failureStore.ts`) -/

/-- A row of the `failed_messages` table, as inserted by
`recordFailedMessage` (all context fields optional). -/
structure FailedMessageRecord where
  senderId : Option String
  username : Option String
  firstName : Option String
  lastName : Option String
  phone : Option String
  message : Option String
  error : Option String
  sourceId : Option String
  contactId : Option String
  inboxId : Option String
deriving Repr, BEq

/-- The local failure ledger (rows in insertion order). -/
abbrev Ledger := List FailedMessageRecord

/-- `recordFailedMessage`: appends one row to the `failed_messages` table. -/
def recordFailedMessage (ledger : Ledger) (entry : FailedMessageRecord) : Ledger :=
  ledger ++ [entry]

/-! ## Inbound forwarder (`src/telegram/client.ts`) -/

/-- `[firstName, lastName].filter(Boolean).join(" ").trim()`. -/
def joinNames (firstName lastName : String) : String :=
  trimJS (String.intercalate " " (([firstName, lastName]).filter (fun s => !s.isEmpty)))

/-- JavaScript `a || b` on strings. -/
def strFallback (a b : String) : String := if a.isEmpty then b else a

/-- The contact display name used by `forwardToCharwoot`:
`joined || username || "Telegram User"`. -/
def fullNameOf (firstName lastName username : String) : String :=
  strFallback (joinNames firstName lastName) (strFallback username "Telegram User")

/-- `(j || "").trim()` where `j` is a contact field read from the remote
response.  A truthy non-string would make the original code throw a
`TypeError` inside the guarded update block (which its `catch` swallows). -/
def jsCoerceTrimmed (j : Json) : M String :=
  match j with
  | .str s => mPure (trimJS s)
  | _ => if jsTruthy j then mThrow (.unexpected "TypeError") else mPure ""

/-- The guarded contact-update block of `forwardToCharwoot`: compare the
sender's live name/phone with the stored contact fields and issue a single
`updateContact` call only when something differs; every error inside the
block is caught and only logged. -/
def contactUpdateStep (o : Oracle) (acct : String) (contact contactId : Json)
    (fullName phone : String) : M Unit :=
  mCatch
    (mBind (jsCoerceTrimmed (jsOr (contact.get "name") ((contact.get "contact").get "name")))
      fun currentName =>
     mBind (jsCoerceTrimmed
        (jsOr (contact.get "phone_number") ((contact.get "contact").get "phone_number")))
      fun currentPhone =>
     let desiredName := fullName
     let desiredPhone := trimJS phone
     let isValidPhone := !desiredPhone.isEmpty && startsWithJS desiredPhone "+"
     let needsNameUpdate :=
       !desiredName.isEmpty && !(trimJS desiredName).isEmpty && trimJS desiredName != currentName
     let needsPhoneUpdate := isValidPhone && desiredPhone != currentPhone
     if needsNameUpdate || needsPhoneUpdate then
       mBind
         (updateContact o acct (jsToString contactId)
           ⟨if needsNameUpdate then some desiredName else none,
            if needsPhoneUpdate then some desiredPhone else none⟩)
         fun _ => mPure ()
     else mPure ())
    (fun _ => mPure ())  -- "Contact update skipped or failed"

/-- `forwardToCharwoot`: create/find the contact, reconcile its fields,
resolve the conversation (source tag `telegram_<senderId>`) and post the
message with direction "incoming".  The function's own catch only logs and
rethrows, so it is semantically transparent and not modelled. -/
def forwardToCharwoot (o : Oracle) (acct inboxId : String)
    (senderId username firstName lastName phone text : String) : M Unit :=
  let fullName := fullNameOf firstName lastName username
  mBind
    (createContact o acct
      ⟨some fullName, (if phone.isEmpty then none else some phone),
       some ("telegram_" ++ senderId)⟩)
    fun contact =>
  let contactId :=
    jsOr (contact.get "id") (jsOr (contact.get "contact_id") ((contact.get "contact").get "id"))
  if !jsTruthy contactId then mThrow (.unexpected "Contact creation/search returned no id")
  else
    mBind (contactUpdateStep o acct contact contactId fullName phone) fun _ =>
    mBind
      (createConversation o acct
        ⟨jsToString contactId, inboxId, some ("telegram_" ++ senderId)⟩)
      fun conversation =>
    let conversationId := jsOr (conversation.get "id") (conversation.get "conversation_id")
    if !jsTruthy conversationId then mThrow (.unexpected "Conversation creation returned no id")
    else
      mBind (createMessage o acct (jsToString conversationId) text (some "incoming") none)
        fun _ => mPure ()

/-- The message handler installed by `startTelegram`: it awaits
`forwardToCharwoot` inside `try { … } catch (error) { logger.error(…) }`.
The catch only logs — it neither rethrows nor calls `recordFailedMessage`,
so the ledger is returned unchanged on both outcomes. -/
def onTelegramMessage (o : Oracle) (acct inboxId : String)
    (senderId username firstName lastName phone text : String) (ledger : Ledger) :
    Except CwErr Unit × Trace × Ledger :=
  match forwardToCharwoot o acct inboxId senderId username firstName lastName phone text [] with
  | (.ok _, tr) => (Except.ok (), tr, ledger)
  | (.error _, tr) => (Except.ok (), tr, ledger)

/-! ## Webhook receiver (`src/server.ts`, `POST /webhooks/chatwoot`) -/

/-- `conversation{id?, source_id?}` after the zod parse (unknown keys such as
`contact_inbox` are stripped by the schema). -/
structure WebhookConv where
  id : Option Int
  source_id : Option String

/-- The webhook body after the zod parse. -/
structure WebhookEvent where
  event : Option String
  message_type : Option String
  content : Option String
  conversation : Option WebhookConv

/-- Truthiness of the optional `content` field. -/
def contentTruthy : Option String → Bool
  | some s => !s.isEmpty
  | none => false

/-- Tag chain read from a fetched conversation detail in the webhook
handler: `convo?.source_id || convo?.contact_inbox?.source_id ||
convo?.additional_attributes?.source_id`. -/
def webhookDetailTag (d : Json) : Json :=
  jsOr (d.get "source_id")
    (jsOr ((d.get "contact_inbox").get "source_id") ((d.get "additional_attributes").get "source_id"))

/-- Delivery decision on a recovered tag: a string starting with
`telegram_` is delivered to the stripped chat identity; anything else is
skipped (a falsy tag logs a warning; a truthy non-string would throw at
`startsWith` and be swallowed by the surrounding catch — no delivery either
way). -/
def deliverStep (sid : Json) (content : String) : List (String × String) :=
  match sid with
  | .str s => if startsWithJS s "telegram_" then [(s.drop "telegram_".length, content)] else []
  | _ => []

/-- The forwarding part of the `POST /webhooks/chatwoot` handler (after token
validation and the zod parse): returns the HTTP response body, the Chatwoot
requests issued, and the Telegram deliveries `(chatId, content)` attempted.
The initial tag comes from the parsed payload (where the zod schema leaves
only `conversation.source_id`); when it is falsy and `conversation.id` is
present and truthy (nonzero) the conversation detail is fetched and the tag
extracted from it; a failed fetch is caught and logged, and the handler
always answers `{ok: true}`. -/
def webhookChatwoot (o : Oracle) (acct : String) (hasClient : Bool) (ev : WebhookEvent) :
    Json × Trace × List (String × String) :=
  let okResp := Json.obj [("ok", Json.bool true)]
  if hasClient && ev.message_type == some "outgoing" && contentTruthy ev.content then
    let content := (ev.content).getD ""
    let sid0 : Json :=
      match ev.conversation with
      | some c =>
        match c.source_id with
        | some s => Json.str s
        | none => Json.null
      | none => Json.null
    if jsTruthy sid0 then (okResp, [], deliverStep sid0 content)
    else
      match ev.conversation with
      | some c =>
        match c.id with
        | some cid =>
          -- `!sourceId && parsed.conversation?.id` tests the id for truthiness:
          -- an id of 0 is falsy, so the detail fetch is skipped
          if cid == 0 then (okResp, [], deliverStep sid0 content)
          else
            match o (convDetailReq acct (toString cid)) with
            | .ok d =>
              (okResp, [convDetailReq acct (toString cid)], deliverStep (webhookDetailTag d) content)
            | .error _ => (okResp, [convDetailReq acct (toString cid)], [])
        | none => (okResp, [], deliverStep sid0 content)
      | none => (okResp, [], deliverStep sid0 content)
  else (okResp, [], [])

/-! ## Direct-send endpoint (`src/server.ts`, `POST /telegram/send-channel`) -/

/-- Outcome of the `/telegram/send-channel` handler, up to the point where
the message is handed to the Telegram client. -/
inductive SendChannelOutcome where
  | noTokenConfigured   -- "API_BEARER_TOKEN must be set to use this endpoint"
  | unauthorized
  | noClient            -- "Telegram client not initialized"
  | validationError     -- zod schema rejection
  | processed : String → String → SendChannelOutcome
deriving Repr, BEq

/-- Whitespace as matched by the regex class `\s` (the forms reaching the
handler). -/
def isJsSpace (c : Char) : Bool :=
  c == ' ' || c == '\t' || c == '\n' || c == '\r'

/-- Bearer extraction of the handler: `authHeader.startsWith("Bearer ")`
guards `authHeader.replace(/^Bearer\s+/i, "")`. -/
def extractBearer (h : Option String) : Option String :=
  match h with
  | none => none
  | some s =>
    if startsWithJS s "Bearer " then some (String.mk ((s.data.drop 6).dropWhile isJsSpace))
    else none

/-- The `/telegram/send-channel` handler: refuse outright when no (non-empty)
static token is configured; otherwise require the Authorization header's
bearer to equal it; then the client check and the body schema check. -/
def sendChannelHandler (cfgToken : Option String) (authHeader : Option String)
    (hasClient : Bool) (channel message : Option String) : SendChannelOutcome :=
  match cfgToken with
  | none => .noTokenConfigured
  | some expected =>
    if expected.isEmpty then .noTokenConfigured  -- an empty env var is falsy
    else
      match extractBearer authHeader with
      | none => .unauthorized
      | some p =>
        if p.isEmpty || p != expected then .unauthorized
        else if !hasClient then .noClient
        else
          match channel, message with
          | some ch, some msg =>
            if ch.isEmpty || msg.isEmpty then .validationError else .processed ch msg
          | _, _ => .validationError

end Chatook

namespace Chatook

/-! ## Helper lemmas -/

lemma listHasPrefix_append (sub l l' : List Char) (h : listHasPrefix sub l = true) :
    listHasPrefix sub (l ++ l') = true := by
  induction sub generalizing l with
  | nil => rfl
  | cons a as ih =>
    cases l with
    | nil => simp [listHasPrefix] at h
    | cons b bs =>
      simp only [listHasPrefix, List.cons_append, Bool.and_eq_true] at h ⊢
      exact ⟨h.1, ih bs h.2⟩

lemma listInfix_nil_sub (l : List Char) : listInfix [] l = true := by
  cases l with
  | nil => rfl
  | cons c cs => simp [listInfix, listHasPrefix]

lemma listInfix_append_left (sub l l' : List Char) (h : listInfix sub l = true) :
    listInfix sub (l ++ l') = true := by
  induction l with
  | nil =>
    simp only [listInfix, List.isEmpty_iff] at h
    subst h
    exact listInfix_nil_sub l'
  | cons c cs ih =>
    simp only [listInfix, Bool.or_eq_true, List.cons_append] at h ⊢
    rcases h with h | h
    · exact Or.inl (listHasPrefix_append _ _ _ h)
    · exact Or.inr (ih h)

/-- A substring of `a` is a substring of `a ++ b`. -/
lemma strContainsSub_append_left (a b sub : String) (h : strContainsSub a sub = true) :
    strContainsSub (a ++ b) sub = true := by
  unfold strContainsSub at h ⊢
  rw [String.data_append]
  exact listInfix_append_left _ _ _ h

/-- The formatted message of an HTTP 409 error contains "409". -/
lemma errMessage_contains_409 (st : String) (d : Json) :
    strContainsSub (errMessage (CwErr.http ⟨409, st, d⟩)) "409" = true := by
  show strContainsSub ("Chatwoot API error: " ++ toString (409 : Nat) ++ " " ++ st) "409" = true
  exact strContainsSub_append_left ("Chatwoot API error: " ++ toString (409 : Nat) ++ " ") st _
    (by decide)

/-- The formatted message of an HTTP 422 error contains "422". -/
lemma errMessage_contains_422 (st : String) (d : Json) :
    strContainsSub (errMessage (CwErr.http ⟨422, st, d⟩)) "422" = true := by
  show strContainsSub ("Chatwoot API error: " ++ toString (422 : Nat) ++ " " ++ st) "422" = true
  exact strContainsSub_append_left ("Chatwoot API error: " ++ toString (422 : Nat) ++ " ") st _
    (by decide)

/-! ## C10 -/

/-- C10: for every contact id, `updateContact` with both `name` and
`phone_number` absent or blank after trimming returns `{ ok: true }` without
issuing any remote HTTP request (the trace stays empty), leaving the remote
contact state untouched. -/
theorem updateContact_blank_is_noop (o : Oracle) (acct contactId : String) (d : UpdateData)
    (hn : ∀ s, d.name = some s → trimJS s = "")
    (hp : ∀ s, d.phone_number = some s → trimJS s = "") :
    updateContact o acct contactId d [] = (Except.ok (Json.obj [("ok", Json.bool true)]), []) := by
  have hb : updateBody d = [] := by
    unfold updateBody
    rcases hdn : d.name with _ | s
    · rcases hdp : d.phone_number with _ | s2
      · rfl
      · simp [hp s2 hdp]
    · rcases hdp : d.phone_number with _ | s2
      · simp [hn s hdn]
      · simp [hn s hdn, hp s2 hdp]
  unfold updateContact
  simp [hb, mPure]

/-- Witness for C10 at a concrete blank update. -/
theorem updateContact_blank_is_noop_witness :
    updateContact (fun _ => Except.error ⟨500, "Internal Server Error", Json.null⟩) "1" "5"
      ⟨some "  ", some ""⟩ [] = (Except.ok (Json.obj [("ok", Json.bool true)]), []) :=
  updateContact_blank_is_noop _ "1" "5" _
    (by intro s h; cases h; decide) (by intro s h; cases h; decide)

/-! ## C4 -/

/-- C4 (amended): the Telegram message handler catches every forwarding
failure — it never raises further — but it only logs: the failure ledger is
returned unchanged, no Failure Record is written. -/
theorem telegramHandler_swallows_without_failure_record (o : Oracle)
    (acct inboxId senderId username firstName lastName phone text : String) (ledger : Ledger) :
    (onTelegramMessage o acct inboxId senderId username firstName lastName phone text ledger).1
        = Except.ok ()
    ∧ (onTelegramMessage o acct inboxId senderId username firstName lastName phone text ledger).2.2
        = ledger := by
  unfold onTelegramMessage
  rcases h : forwardToCharwoot o acct inboxId senderId username firstName lastName phone text []
    with ⟨r, tr⟩
  cases r <;> simp

/-- Counterexample for C4 as stated: with a remote that fails every call,
forwarding fails (the contact POST is rejected with a 500), yet the handler
answers normally and the failure ledger stays empty — no Failure Record is
written. -/
theorem telegramHandler_no_failure_record_cex :
    (forwardToCharwoot (fun _ => Except.error ⟨500, "Internal Server Error", Json.null⟩)
        "1" "1" "42" "u" "John" "" "" "hi" []).1
      = Except.error (CwErr.http ⟨500, "Internal Server Error", Json.null⟩)
    ∧ (onTelegramMessage (fun _ => Except.error ⟨500, "Internal Server Error", Json.null⟩)
        "1" "1" "42" "u" "John" "" "" "hi" []).2.2 = ([] : Ledger) :=
  ⟨rfl, rfl⟩

end Chatook

namespace Chatook

/-! ## C6 -/

/-- Counterexample for C6 as stated: on a success payload matching none of
the known wrapper shapes, `updateContact` and `createMessage` do not fail
with an unrecognized-response-shape error — they succeed, returning the raw
payload. -/
theorem rawShape_no_error_cex :
    (updateContact (fun _ => Except.ok (Json.obj [("weird", Json.num 1)])) "1" "5"
        ⟨some "Bob", none⟩ []).1 = Except.ok (Json.obj [("weird", Json.num 1)])
    ∧ (createMessage (fun _ => Except.ok (Json.obj [("weird", Json.num 1)])) "1" "5"
        "hi" none none []).1 = Except.ok (Json.obj [("weird", Json.num 1)]) :=
  ⟨rfl, rfl⟩

/-- C6 (amended): when the remote call succeeds but the payload matches none
of the known wrapper shapes (checked in a fixed priority order),
`createContact` and `createConversation` fail with an
"Unexpected … response" error, a `CwErr.unexpected` distinct from the
transport-level `CwErr.http` kind; `updateContact` and `createMessage`,
however, simply return the raw payload in that case. -/
theorem unrecognizedShape_behavior (acct : String) :
    (∀ (o : Oracle) (d : ContactData) (resp : Json),
      o (contactCreateReq acct (contactCreateBody d)) = Except.ok resp →
      jsTruthy (resp.get "contact") = false →
      jsTruthy ((resp.get "payload").get "contact") = false →
      jsTruthy (resp.get "payload") = false →
      jsTruthy (resp.get "id") = false →
      (createContact o acct d []).1 = Except.error (CwErr.unexpected "Unexpected contact response"))
    ∧ (∀ (o : Oracle) (d : ConvData) (raw resp : Json),
      o (convListInboxReq acct (parseIntJS d.inbox_id) 1) = Except.ok raw →
      parseConversations raw = [] →
      o (convCreateReq acct
          (convCreateBody (parseIntJS d.contact_id) (parseIntJS d.inbox_id) d.source_id))
        = Except.ok resp →
      jsTruthy (resp.get "conversation") = false →
      jsTruthy ((resp.get "payload").get "conversation") = false →
      jsTruthy (resp.get "id") = false →
      (createConversation o acct d []).1
        = Except.error (CwErr.unexpected "Unexpected conversation response"))
    ∧ (∀ (o : Oracle) (cid name : String) (resp : Json),
      0 < (trimJS name).length →
      o (contactUpdateReq acct (parseIntJS cid) (Json.obj [("name", Json.str (trimJS name))]))
        = Except.ok resp →
      jsTruthy (resp.get "contact") = false →
      jsTruthy ((resp.get "payload").get "contact") = false →
      (updateContact o acct cid ⟨some name, none⟩ []).1 = Except.ok resp)
    ∧ (∀ (o : Oracle) (convId content : String) (mt : Option String) (pv : Option Bool) (resp : Json),
      o (messageCreateReq acct convId (messageBody content mt pv)) = Except.ok resp →
      jsTruthy (resp.get "message") = false →
      jsTruthy ((resp.get "payload").get "message") = false →
      (createMessage o acct convId content mt pv []).1 = Except.ok resp)
    ∧ (∀ (m : String) (h : HErr), CwErr.unexpected m ≠ CwErr.http h) := by
  refine ⟨?_, ?_, ?_, ?_, ?_⟩
  · intro o d resp hreq h1 h2 h3 h4
    have c1 : strContainsSub "Unexpected contact response" "409" = false := by decide
    have c2 : strContainsSub "Unexpected contact response" "422" = false := by decide
    unfold createContact
    simp [mCatch, mBind, mPure, mThrow, doRequest, unwrapContact, hreq, h1, h2, h3, h4,
      errMessage, c1, c2]
  · intro o d raw resp hlist hparse hreq h1 h2 h3
    unfold createConversation
    simp [mCatch, mBind, mPure, mThrow, doRequest, findByContactPages, unwrapConversation,
      isSourceIdConflict, hlist, hparse, hreq, h1, h2, h3]
  · intro o cid name resp hn hreq h1 h2
    unfold updateContact
    simp [updateBody, hn, mCatch, mBind, mPure, mThrow, doRequest, hreq, h1, h2]
  · intro o convId content mt pv resp hreq h1 h2
    unfold createMessage
    simp [mBind, mPure, doRequest, hreq, h1, h2]
  · intro m h
    exact fun hc => CwErr.noConfusion hc

/-- Witness for the amended C6 at a concrete unrecognized payload. -/
theorem unrecognizedShape_behavior_witness :
    (createContact (fun _ => Except.ok (Json.obj [("weird", Json.num 1)])) "1"
        ⟨some "Bob", none, some "telegram_9"⟩ []).1
      = Except.error (CwErr.unexpected "Unexpected contact response")
    ∧ (createConversation (fun _ => Except.ok (Json.obj [("weird", Json.num 1)])) "1"
        ⟨"7", "1", some "telegram_9"⟩ []).1
      = Except.error (CwErr.unexpected "Unexpected conversation response")
    ∧ (updateContact (fun _ => Except.ok (Json.obj [("weird", Json.num 1)])) "1" "5"
        ⟨some "Bob", none⟩ []).1 = Except.ok (Json.obj [("weird", Json.num 1)]) := by
  refine ⟨?_, ?_, ?_⟩
  · exact (unrecognizedShape_behavior "1").1 _ _ (Json.obj [("weird", Json.num 1)])
      rfl rfl rfl rfl rfl
  · exact (unrecognizedShape_behavior "1").2.1 _ _ (Json.obj [("weird", Json.num 1)])
      (Json.obj [("weird", Json.num 1)]) rfl rfl rfl rfl rfl rfl
  · exact (unrecognizedShape_behavior "1").2.2.1 _ "5" "Bob" (Json.obj [("weird", Json.num 1)])
      (by decide) rfl rfl rfl

end Chatook

namespace Chatook

/-! ## C5 -/

/-- C5: when the contact-creation POST is rejected with HTTP 409 or 422,
`createContact` falls back to the search endpoint and then to the
identifier-filtered list, returning the contact found there: the first
conjunct covers a hit on the search endpoint, the second a search endpoint
that exposes nothing while the identifier-filtered list finds the contact;
when both searches expose no contact (third conjunct), the original
conflict error is surfaced to the caller. -/
theorem createContact_conflict_fallback (acct : String) (d : ContactData)
    (status : Nat) (st : String) (errData : Json)
    (hst : status = 409 ∨ status = 422) :
    (∀ (o : Oracle) (sResp : Json),
      o (contactCreateReq acct (contactCreateBody d)) = Except.error ⟨status, st, errData⟩ →
      o (contactSearchReq acct (encodeURIComponent (d.identifier.getD ""))) = Except.ok sResp →
      jsTruthy (contactFoundOfSearch sResp) = true →
      createContact o acct d []
        = (Except.ok (contactFoundOfSearch sResp),
           [contactCreateReq acct (contactCreateBody d),
            contactSearchReq acct (encodeURIComponent (d.identifier.getD ""))]))
    ∧ (∀ (o : Oracle) (sResp bResp : Json),
      o (contactCreateReq acct (contactCreateBody d)) = Except.error ⟨status, st, errData⟩ →
      o (contactSearchReq acct (encodeURIComponent (d.identifier.getD ""))) = Except.ok sResp →
      jsTruthy (contactFoundOfSearch sResp) = false →
      o (contactByIdentifierReq acct (encodeURIComponent (d.identifier.getD ""))) = Except.ok bResp →
      jsTruthy (contactFoundOfList bResp) = true →
      createContact o acct d []
        = (Except.ok (contactFoundOfList bResp),
           [contactCreateReq acct (contactCreateBody d),
            contactSearchReq acct (encodeURIComponent (d.identifier.getD "")),
            contactByIdentifierReq acct (encodeURIComponent (d.identifier.getD ""))]))
    ∧ (∀ (o : Oracle) (sResp bResp : Json),
      o (contactCreateReq acct (contactCreateBody d)) = Except.error ⟨status, st, errData⟩ →
      o (contactSearchReq acct (encodeURIComponent (d.identifier.getD ""))) = Except.ok sResp →
      jsTruthy (contactFoundOfSearch sResp) = false →
      o (contactByIdentifierReq acct (encodeURIComponent (d.identifier.getD ""))) = Except.ok bResp →
      jsTruthy (contactFoundOfList bResp) = false →
      createContact o acct d []
        = (Except.error (CwErr.http ⟨status, st, errData⟩),
           [contactCreateReq acct (contactCreateBody d),
            contactSearchReq acct (encodeURIComponent (d.identifier.getD "")),
            contactByIdentifierReq acct (encodeURIComponent (d.identifier.getD ""))])) := by
  have hmsg : strContainsSub (errMessage (CwErr.http ⟨status, st, errData⟩)) "409" = true
      ∨ strContainsSub (errMessage (CwErr.http ⟨status, st, errData⟩)) "422" = true := by
    rcases hst with h | h
    · subst h; exact Or.inl (errMessage_contains_409 st errData)
    · subst h; exact Or.inr (errMessage_contains_422 st errData)
  refine ⟨?_, ?_, ?_⟩
  · intro o sResp hCreate hSearch hFound
    unfold createContact
    rcases hmsg with h | h <;>
      simp [mCatch, mBind, mPure, mThrow, doRequest, unwrapContact, hCreate, hSearch, hFound, h]
  · intro o sResp bResp hCreate hSearch hNo1 hList hFound2
    unfold createContact
    rcases hmsg with h | h <;>
      simp [mCatch, mBind, mPure, mThrow, doRequest, unwrapContact, hCreate, hSearch, hNo1,
        hList, hFound2, h]
  · intro o sResp bResp hCreate hSearch hNo1 hList hNo2
    unfold createContact
    rcases hmsg with h | h <;>
      simp [mCatch, mBind, mPure, mThrow, doRequest, unwrapContact, hCreate, hSearch, hNo1,
        hList, hNo2, h]

/-- Witness for C5: a concrete 409 conflict resolved through the search
endpoint, a concrete 409 conflict where the search endpoint is empty and
the identifier-filtered list finds the contact (in its `data` wrapper), and
a concrete 422 conflict where both searches are empty and the original
error resurfaces. -/
theorem createContact_conflict_fallback_witness :
    createContact
        (fun r => if r.method == Method.post then Except.error ⟨409, "Conflict", Json.null⟩
          else Except.ok (Json.obj [("payload", Json.arr [Json.obj [("id", Json.num 3)]])]))
        "1" ⟨some "John", none, some "telegram_9"⟩ []
      = (Except.ok (Json.obj [("id", Json.num 3)]),
         [contactCreateReq "1" (contactCreateBody ⟨some "John", none, some "telegram_9"⟩),
          contactSearchReq "1" "telegram_9"])
    ∧ createContact
        (fun r => if r.method == Method.post then Except.error ⟨409, "Conflict", Json.null⟩
          else if r.path == (contactByIdentifierReq "1" "telegram_9").path
          then Except.ok (Json.obj [("data", Json.arr [Json.obj [("id", Json.num 5)]])])
          else Except.ok (Json.obj []))
        "1" ⟨some "John", none, some "telegram_9"⟩ []
      = (Except.ok (Json.obj [("id", Json.num 5)]),
         [contactCreateReq "1" (contactCreateBody ⟨some "John", none, some "telegram_9"⟩),
          contactSearchReq "1" "telegram_9",
          contactByIdentifierReq "1" "telegram_9"])
    ∧ createContact
        (fun r => if r.method == Method.post
          then Except.error ⟨422, "Unprocessable Entity", Json.null⟩
          else Except.ok (Json.obj []))
        "1" ⟨some "John", none, some "telegram_9"⟩ []
      = (Except.error (CwErr.http ⟨422, "Unprocessable Entity", Json.null⟩),
         [contactCreateReq "1" (contactCreateBody ⟨some "John", none, some "telegram_9"⟩),
          contactSearchReq "1" "telegram_9",
          contactByIdentifierReq "1" "telegram_9"]) := by
  refine ⟨?_, ?_, ?_⟩
  · exact (createContact_conflict_fallback "1" ⟨some "John", none, some "telegram_9"⟩
      409 "Conflict" Json.null (Or.inl rfl)).1 _
      (Json.obj [("payload", Json.arr [Json.obj [("id", Json.num 3)]])]) rfl rfl rfl
  · exact (createContact_conflict_fallback "1" ⟨some "John", none, some "telegram_9"⟩
      409 "Conflict" Json.null (Or.inl rfl)).2.1 _
      (Json.obj []) (Json.obj [("data", Json.arr [Json.obj [("id", Json.num 5)]])])
      rfl rfl rfl rfl rfl
  · exact (createContact_conflict_fallback "1" ⟨some "John", none, some "telegram_9"⟩
      422 "Unprocessable Entity" Json.null (Or.inr rfl)).2.2 _
      (Json.obj []) (Json.obj []) rfl rfl rfl rfl rfl

/-! ## C9 -/

/-- C9: `/telegram/send-channel` refuses every request when no static bearer
token is configured (including the falsy empty-string configuration),
regardless of the supplied credentials; when a non-empty token is
configured, the request gets past authorization exactly when the
Authorization header's extracted bearer equals that token, and is rejected
as Unauthorized otherwise. -/
theorem sendChannel_auth_gate (h : Option String) (hasClient : Bool)
    (ch msg : Option String) (t : String) (ht : t ≠ "") :
    sendChannelHandler none h hasClient ch msg = SendChannelOutcome.noTokenConfigured
    ∧ sendChannelHandler (some "") h hasClient ch msg = SendChannelOutcome.noTokenConfigured
    ∧ ((sendChannelHandler (some t) h hasClient ch msg ≠ SendChannelOutcome.unauthorized)
        ↔ extractBearer h = some t) := by
  have htE : t.isEmpty = false := by
    rcases hE : t.isEmpty with _ | _
    · rfl
    · exact absurd ((String.isEmpty_iff t).mp hE) ht
  have h0 : ("" : String).isEmpty = true := rfl
  refine ⟨rfl, by simp [sendChannelHandler, h0], ?_⟩
  unfold sendChannelHandler
  rcases hB : extractBearer h with _ | p
  · simp [htE]
  · by_cases hpt : p = t
    · subst hpt
      simp only [htE, Bool.false_eq_true, if_false, bne_self_eq_false, Bool.or_false,
        if_false]
      constructor
      · intro _; trivial
      · intro _
        cases hasClient
        · simp
        · rcases ch with _ | c
          · simp
          · rcases msg with _ | m
            · simp
            · by_cases hcm : (c.isEmpty || m.isEmpty) = true
              · simp [hcm]
              · simp [hcm]
    · have hne : (p != t) = true := by simp [bne, hpt]
      simp [htE, hne, hpt]

/-- Witness for C9 at concrete tokens and headers. -/
theorem sendChannel_auth_gate_witness :
    sendChannelHandler none (some "Bearer tok") true (some "c") (some "m")
        = SendChannelOutcome.noTokenConfigured
    ∧ ((sendChannelHandler (some "tok") (some "Bearer tok") true (some "c") (some "m")
        ≠ SendChannelOutcome.unauthorized) ↔ extractBearer (some "Bearer tok") = some "tok") :=
  ⟨(sendChannel_auth_gate (some "Bearer tok") true (some "c") (some "m") "tok" (by decide)).1,
   (sendChannel_auth_gate (some "Bearer tok") true (some "c") (some "m") "tok" (by decide)).2.2⟩

end Chatook

namespace Chatook

/-! ## C8 -/

/-- Counterexample for C8 as stated: with `conversation.source_id` absent
and `conversation.id` present but equal to 0 — which JavaScript treats as
falsy in `!sourceId && parsed.conversation?.id` — the handler performs no
remote detail fetch at all (the trace is empty) and delivers nothing, even
though the remote would have supplied a `telegram_`-tagged detail; the
claim asserts the detail is fetched whenever the id is present. -/
theorem webhook_zero_id_skips_fetch_cex :
    webhookChatwoot (fun _ => Except.ok (Json.obj [("source_id", Json.str "telegram_5")]))
        "1" true ⟨none, some "outgoing", some "Hello", some ⟨some 0, none⟩⟩
      = (Json.obj [("ok", Json.bool true)], [], []) := rfl

/-- C8 (amended): the webhook handler delivers to the chat transport exactly
for outgoing events with non-empty content whose recovered source tag starts
with "telegram_": a tag present in the payload is used directly — the
content goes to the identity obtained by stripping the prefix, with no
remote detail fetch; with the tag absent but `conversation.id` present and
truthy (nonzero), the conversation detail is fetched and the tag extracted
from the known nested fields, and a tag without the prefix is skipped while
the handler still answers `{ok: true}`; with `conversation.id` present but
zero (falsy) no fetch is made and nothing is delivered; events that are not
outgoing or have empty content produce neither requests nor deliveries. -/
theorem webhook_outbound_delivery (o : Oracle) (acct : String) (e : Option String) :
    (∀ (cid : Option Int) (sid ct : String),
      sid.isEmpty = false → ct.isEmpty = false → startsWithJS sid "telegram_" = true →
      webhookChatwoot o acct true ⟨e, some "outgoing", some ct, some ⟨cid, some sid⟩⟩
        = (Json.obj [("ok", Json.bool true)], [], [(sid.drop "telegram_".length, ct)]))
    ∧ (∀ (n : Int) (ct : String) (dj : Json) (s : String),
      n ≠ 0 → ct.isEmpty = false →
      o (convDetailReq acct (toString n)) = Except.ok dj →
      webhookDetailTag dj = Json.str s →
      webhookChatwoot o acct true ⟨e, some "outgoing", some ct, some ⟨some n, none⟩⟩
        = (Json.obj [("ok", Json.bool true)], [convDetailReq acct (toString n)],
           if startsWithJS s "telegram_" then [(s.drop "telegram_".length, ct)] else []))
    ∧ (∀ (ct : String), ct.isEmpty = false →
      webhookChatwoot o acct true ⟨e, some "outgoing", some ct, some ⟨some 0, none⟩⟩
        = (Json.obj [("ok", Json.bool true)], [], []))
    ∧ (∀ (ev : WebhookEvent),
      ev.message_type ≠ some "outgoing" ∨ contentTruthy ev.content = false →
      webhookChatwoot o acct true ev = (Json.obj [("ok", Json.bool true)], [], [])) := by
  refine ⟨?_, ?_, ?_, ?_⟩
  · intro cid sid ct hsid hct hpre
    unfold webhookChatwoot
    simp [contentTruthy, hct, jsTruthy, hsid, deliverStep, hpre]
  · intro n ct dj s hn hct hreq htag
    have hn0 : (n == 0) = false := beq_eq_false_iff_ne.mpr hn
    unfold webhookChatwoot
    simp [contentTruthy, hct, jsTruthy, hn0, hreq, htag, deliverStep]
  · intro ct hct
    unfold webhookChatwoot
    simp [contentTruthy, hct, jsTruthy, deliverStep]
  · intro ev hne
    unfold webhookChatwoot
    rcases hne with hne | hne
    · have : (ev.message_type == some "outgoing") = false := by
        simp [beq_iff_eq]
        exact hne
      simp [this]
    · simp [hne]

/-- Witness for C8: a payload-carried tag delivered without a fetch, a
fetched tag delivered after a detail fetch of conversation 77, a zero
(falsy) id skipping the fetch, and a skipped non-outgoing event. -/
theorem webhook_outbound_delivery_witness :
    webhookChatwoot (fun _ => Except.error ⟨500, "ise", Json.null⟩) "1" true
        ⟨none, some "outgoing", some "Hello", some ⟨some 5, some "telegram_12345"⟩⟩
      = (Json.obj [("ok", Json.bool true)], [], [("12345", "Hello")])
    ∧ webhookChatwoot
        (fun _ => Except.ok (Json.obj [("id", Json.num 77),
          ("contact_inbox", Json.obj [("source_id", Json.str "telegram_9")])])) "1" true
        ⟨none, some "outgoing", some "Hello", some ⟨some 77, none⟩⟩
      = (Json.obj [("ok", Json.bool true)], [convDetailReq "1" "77"], [("9", "Hello")])
    ∧ webhookChatwoot (fun _ => Except.error ⟨500, "ise", Json.null⟩) "1" true
        ⟨none, some "outgoing", some "Hi", some ⟨some 0, none⟩⟩
      = (Json.obj [("ok", Json.bool true)], [], [])
    ∧ webhookChatwoot (fun _ => Except.error ⟨500, "ise", Json.null⟩) "1" true
        ⟨none, some "incoming", some "Hello", some ⟨some 5, some "telegram_12345"⟩⟩
      = (Json.obj [("ok", Json.bool true)], [], []) := by
  refine ⟨?_, ?_, ?_, ?_⟩
  · exact (webhook_outbound_delivery (fun _ => Except.error ⟨500, "ise", Json.null⟩) "1" none).1
      (some 5) "telegram_12345" "Hello" rfl rfl rfl
  · exact (webhook_outbound_delivery
      (fun _ => Except.ok (Json.obj [("id", Json.num 77),
        ("contact_inbox", Json.obj [("source_id", Json.str "telegram_9")])])) "1" none).2.1
      77 "Hello" (Json.obj [("id", Json.num 77),
        ("contact_inbox", Json.obj [("source_id", Json.str "telegram_9")])]) "telegram_9"
      (by decide) rfl rfl rfl
  · exact (webhook_outbound_delivery (fun _ => Except.error ⟨500, "ise", Json.null⟩)
      "1" none).2.2.1 "Hi" rfl
  · exact (webhook_outbound_delivery (fun _ => Except.error ⟨500, "ise", Json.null⟩)
      "1" none).2.2.2
      ⟨none, some "incoming", some "Hello", some ⟨some 5, some "telegram_12345"⟩⟩
      (Or.inl (by decide))

end Chatook

namespace Chatook

/-! ## C2 -/

/-- C2: resolving the same `(identity key, inbox)` twice in sequence yields
the same conversation identifier: when the remote state left by the first
call lists the created conversation for this contact, the second call finds
it by locally filtering the inbox's conversation list on the contact
identifier and returns it — its trace is the single list request, so no
creation POST is issued. -/
theorem createConversation_idempotent (o1 o2 : Oracle) (acct cidS inbS k : String)
    (conv raw c : Json)
    (_h1 : (createConversation o1 acct ⟨cidS, inbS, some k⟩ []).1 = Except.ok conv)
    (h2 : o2 (convListInboxReq acct (parseIntJS inbS) 1) = Except.ok raw)
    (h3 : (parseConversations raw).find? (matchesContact (parseIntJS cidS)) = some c)
    (h4 : c.get "id" = conv.get "id") :
    createConversation o2 acct ⟨cidS, inbS, some k⟩ []
        = (Except.ok c, [convListInboxReq acct (parseIntJS inbS) 1])
    ∧ c.get "id" = conv.get "id" := by
  refine ⟨?_, h4⟩
  unfold createConversation
  simp [mBind, mCatch, mPure, doRequest, findByContactPages, h2, h3]

/-- Witness for C2: a first call that creates conversation 42 against an
empty remote, and a second call that finds it in the listing. -/
theorem createConversation_idempotent_witness :
    createConversation
        (fun r => if r.method == Method.get
          then Except.ok (Json.obj [("data", Json.obj [("payload",
            Json.arr [Json.obj [("id", Json.num 42), ("contact_id", Json.num 7)]])])])
          else Except.error ⟨500, "ise", Json.null⟩)
        "1" ⟨"7", "1", some "telegram_9"⟩ []
      = (Except.ok (Json.obj [("id", Json.num 42), ("contact_id", Json.num 7)]),
         [convListInboxReq "1" (some 1) 1])
    ∧ (Json.obj [("id", Json.num 42), ("contact_id", Json.num 7)]).get "id"
        = (Json.obj [("id", Json.num 42)]).get "id" := by
  have hfirst : (createConversation
      (fun r => if r.method == Method.post then Except.ok (Json.obj [("id", Json.num 42)])
        else Except.ok (Json.arr []))
      "1" ⟨"7", "1", some "telegram_9"⟩ []).1 = Except.ok (Json.obj [("id", Json.num 42)]) := rfl
  exact createConversation_idempotent
    (fun r => if r.method == Method.post then Except.ok (Json.obj [("id", Json.num 42)])
      else Except.ok (Json.arr []))
    (fun r => if r.method == Method.get
      then Except.ok (Json.obj [("data", Json.obj [("payload",
        Json.arr [Json.obj [("id", Json.num 42), ("contact_id", Json.num 7)]])])])
      else Except.error ⟨500, "ise", Json.null⟩)
    "1" "7" "1" "telegram_9" (Json.obj [("id", Json.num 42)]) _ _ hfirst rfl rfl rfl

/-! ## C3 -/

/-- C3: after a `source_id` creation conflict, when the paginated unfiltered
search, the deep detail scan and the contact-filtered list all locate
nothing, `createConversation` retries creation with the top-level
`source_id` field omitted from the request body (the
`additional_attributes.source_id` copy is kept) and returns the resulting
conversation — no error reaches the caller on this degraded path. -/
theorem createConversation_degraded_fallback (o : Oracle) (acct cidS inbS k st : String)
    (errData rawI rawA rawC fbResp : Json)
    (hL : o (convListInboxReq acct (parseIntJS inbS) 1) = Except.ok rawI)
    (hLP : parseConversations rawI = [])
    (hCr : o (convCreateReq acct (convCreateBody (parseIntJS cidS) (parseIntJS inbS) (some k)))
        = Except.error ⟨422, st, errData⟩)
    (hSid : jsonStrIncludes (errData.get "error") "source_id" = true)
    (hA1 : o (convListAllReq acct 1) = Except.ok rawA)
    (hAP : parseConversations rawA = [])
    (hBC : o (convByContactReq acct (parseIntJS cidS)) = Except.ok rawC)
    (hCP : parseConversations rawC = [])
    (hFb : o (convCreateReq acct (fallbackConvBody (parseIntJS cidS) (parseIntJS inbS) (some k)))
        = Except.ok fbResp)
    (hF1 : fbResp.get "conversation" = Json.null)
    (hF2 : (fbResp.get "payload").get "conversation" = Json.null)
    (hF3 : jsTruthy (fbResp.get "id") = true) :
    createConversation o acct ⟨cidS, inbS, some k⟩ []
        = (Except.ok fbResp,
           [convListInboxReq acct (parseIntJS inbS) 1,
            convCreateReq acct (convCreateBody (parseIntJS cidS) (parseIntJS inbS) (some k)),
            convListAllReq acct 1,
            convListAllReq acct 1,
            convByContactReq acct (parseIntJS cidS),
            convCreateReq acct (fallbackConvBody (parseIntJS cidS) (parseIntJS inbS) (some k))])
    ∧ (fallbackConvBody (parseIntJS cidS) (parseIntJS inbS) (some k)).hasKey "source_id" = false
    ∧ ((fallbackConvBody (parseIntJS cidS) (parseIntJS inbS) (some k)).get
        "additional_attributes").hasKey "source_id" = true := by
  refine ⟨?_, by simp [fallbackConvBody, Json.hasKey], by simp [fallbackConvBody, Json.hasKey, Json.get, getField]⟩
  have hnull : jsTruthy Json.null = false := rfl
  unfold createConversation
  simp [mBind, mCatch, mPure, mThrow, doRequest, findByContactPages, unwrapConversation,
    isSourceIdConflict, conflictSearch, sourceSearchPages, deepScanPages, deepScanList,
    contactFilteredSearch, fallbackCreate, jsOr, hnull,
    hL, hLP, hCr, hSid, hA1, hAP, hBC, hCP, hFb, hF1, hF2, hF3]

/-- Witness for C3 at a concrete conflicting remote with an empty listing. -/
theorem createConversation_degraded_fallback_witness :
    createConversation
        (fun r =>
          match r.method, r.body with
          | Method.post, some b =>
            if b.hasKey "source_id"
            then Except.error ⟨422, "Unprocessable Entity",
              Json.obj [("error", Json.str "source_id has already been taken")]⟩
            else Except.ok (Json.obj [("id", Json.num 43)])
          | _, _ => Except.ok (Json.arr []))
        "1" ⟨"7", "1", some "telegram_9"⟩ []
      = (Except.ok (Json.obj [("id", Json.num 43)]),
         [convListInboxReq "1" (some 1) 1,
          convCreateReq "1" (convCreateBody (some 7) (some 1) (some "telegram_9")),
          convListAllReq "1" 1,
          convListAllReq "1" 1,
          convByContactReq "1" (some 7),
          convCreateReq "1" (fallbackConvBody (some 7) (some 1) (some "telegram_9"))])
    ∧ (fallbackConvBody (some 7) (some 1) (some "telegram_9")).hasKey "source_id" = false := by
  have h := createConversation_degraded_fallback
    (fun r =>
      match r.method, r.body with
      | Method.post, some b =>
        if b.hasKey "source_id"
        then Except.error ⟨422, "Unprocessable Entity",
          Json.obj [("error", Json.str "source_id has already been taken")]⟩
        else Except.ok (Json.obj [("id", Json.num 43)])
      | _, _ => Except.ok (Json.arr []))
    "1" "7" "1" "telegram_9" "Unprocessable Entity"
    (Json.obj [("error", Json.str "source_id has already been taken")])
    (Json.arr []) (Json.arr []) (Json.arr []) (Json.obj [("id", Json.num 43)])
    rfl rfl rfl (by decide) rfl rfl rfl rfl rfl rfl rfl rfl
  exact ⟨h.1, h.2.1⟩

end Chatook

namespace Chatook

/-! ## C1 -/

/-- C1: when conversation creation is rejected with a 422 whose error data
mentions `source_id`, `createConversation` falls back to listing
conversations without the inbox filter and matching each one's source-tag
chain (`source_id`, `contact_inbox.source_id`,
`additional_attributes.source_id`,
`meta.sender.additional_attributes.source_id`) against the identity key by
exact string equality.  First conjunct: when the list-level fields do not
expose the tag, the conversation's full detail is fetched and the first
detail whose tag equals the key is returned; consequently a second racing
invocation whose creation attempt conflicts converges to the identifier
created by the first invocation.  Second conjunct: a tag visible at list
level is matched there directly, and the first matching conversation in
list order wins. -/
theorem createConversation_conflict_search_race (acct cidS inbS k : String) :
    (∀ (o1 o2 : Oracle) (conv1 rawI rawA rawB c0 dJson errData : Json) (st : String),
      (createConversation o1 acct ⟨cidS, inbS, some k⟩ []).1 = Except.ok conv1 →
      o2 (convListInboxReq acct (parseIntJS inbS) 1) = Except.ok rawI →
      parseConversations rawI = [] →
      o2 (convCreateReq acct (convCreateBody (parseIntJS cidS) (parseIntJS inbS) (some k)))
        = Except.error ⟨422, st, errData⟩ →
      jsonStrIncludes (errData.get "message") "source_id" = true →
      o2 (convListAllReq acct 1) = Except.ok rawA →
      parseConversations rawA = [c0] →
      matchesSourceId (some k) c0 = false →
      o2 (convListAllReq acct 2) = Except.ok rawB →
      parseConversations rawB = [] →
      o2 (convDetailReq acct (jsToString (c0.get "id"))) = Except.ok dJson →
      strictEqStr (detailTag dJson) (some k) = true →
      dJson.get "id" = conv1.get "id" →
      createConversation o2 acct ⟨cidS, inbS, some k⟩ []
          = (Except.ok dJson,
             [convListInboxReq acct (parseIntJS inbS) 1,
              convCreateReq acct (convCreateBody (parseIntJS cidS) (parseIntJS inbS) (some k)),
              convListAllReq acct 1, convListAllReq acct 2,
              convListAllReq acct 1, convDetailReq acct (jsToString (c0.get "id"))])
        ∧ dJson.get "id" = conv1.get "id")
    ∧ (∀ (o3 : Oracle) (rawI rawA x y z errData : Json) (st : String),
      o3 (convListInboxReq acct (parseIntJS inbS) 1) = Except.ok rawI →
      parseConversations rawI = [] →
      o3 (convCreateReq acct (convCreateBody (parseIntJS cidS) (parseIntJS inbS) (some k)))
        = Except.error ⟨422, st, errData⟩ →
      jsonStrIncludes (errData.get "error") "source_id" = true →
      o3 (convListAllReq acct 1) = Except.ok rawA →
      parseConversations rawA = [x, y, z] →
      matchesSourceId (some k) x = false →
      matchesSourceId (some k) y = true →
      createConversation o3 acct ⟨cidS, inbS, some k⟩ []
          = (Except.ok y,
             [convListInboxReq acct (parseIntJS inbS) 1,
              convCreateReq acct (convCreateBody (parseIntJS cidS) (parseIntJS inbS) (some k)),
              convListAllReq acct 1])) := by
  constructor
  · intro o1 o2 conv1 rawI rawA rawB c0 dJson errData st
      _h1 hL hLP hCr hSid hA1 hAP hNoList hA2 hBP hDet hTag hIdEq
    refine ⟨?_, hIdEq⟩
    unfold createConversation
    simp [mBind, mCatch, mPure, mThrow, doRequest, findByContactPages, unwrapConversation,
      isSourceIdConflict, conflictSearch, sourceSearchPages, deepScanPages, deepScanList,
      hL, hLP, hCr, hSid, hA1, hAP, hNoList, hA2, hBP, hDet, hTag]
  · intro o3 rawI rawA x y z errData st hL hLP hCr hSid hA1 hAP hx hy
    unfold createConversation
    simp [mBind, mCatch, mPure, mThrow, doRequest, findByContactPages, unwrapConversation,
      isSourceIdConflict, conflictSearch, sourceSearchPages,
      hL, hLP, hCr, hSid, hA1, hAP, hx, hy]

/-- Remote stub for the second racing invocation of the C1 witness: the
creation POST conflicts on `source_id`, the unfiltered list exposes one
conversation without a list-level tag, and its detail carries the tag. -/
def conflictRaceOracle : Oracle := fun r =>
  if r.method == Method.post then
    Except.error ⟨422, "Unprocessable Entity",
      Json.obj [("message", Json.str "source_id has already been taken")]⟩
  else if r.path == (convListAllReq "1" 1).path then
    Except.ok (Json.arr [Json.obj [("id", Json.num 42)]])
  else if r.path == (convListAllReq "1" 2).path then Except.ok (Json.arr [])
  else if r.path == (convDetailReq "1" "42").path then
    Except.ok (Json.obj [("id", Json.num 42),
      ("additional_attributes", Json.obj [("source_id", Json.str "telegram_9")])])
  else Except.ok (Json.arr [])

/-- Remote stub for the list-level conjunct of the C1 witness: the
unfiltered list holds three conversations carrying the tag in different
nested locations, the second being the first match. -/
def conflictListOracle : Oracle := fun r =>
  if r.method == Method.post then
    Except.error ⟨422, "Unprocessable Entity",
      Json.obj [("error", Json.str "source_id has already been taken")]⟩
  else if r.path == (convListAllReq "1" 1).path then
    Except.ok (Json.arr
      [Json.obj [("id", Json.num 41),
        ("contact_inbox", Json.obj [("source_id", Json.str "telegram_8")])],
       Json.obj [("id", Json.num 42),
        ("meta", Json.obj [("sender", Json.obj [("additional_attributes",
          Json.obj [("source_id", Json.str "telegram_9")])])])],
       Json.obj [("id", Json.num 43), ("source_id", Json.str "telegram_9")]])
  else Except.ok (Json.arr [])

/-- Witness for C1: both racing invocations at a concrete remote return
conversation 42, and the list-level search returns the first of two
tag-matching conversations. -/
theorem createConversation_conflict_search_race_witness :
    (createConversation
        (fun r => if r.method == Method.post then Except.ok (Json.obj [("id", Json.num 42)])
          else Except.ok (Json.arr []))
        "1" ⟨"7", "1", some "telegram_9"⟩ []).1 = Except.ok (Json.obj [("id", Json.num 42)])
    ∧ (createConversation conflictRaceOracle "1" ⟨"7", "1", some "telegram_9"⟩ []).1
        = Except.ok (Json.obj [("id", Json.num 42),
            ("additional_attributes", Json.obj [("source_id", Json.str "telegram_9")])])
    ∧ (Json.obj [("id", Json.num 42),
        ("additional_attributes", Json.obj [("source_id", Json.str "telegram_9")])]).get "id"
        = (Json.obj [("id", Json.num 42)]).get "id"
    ∧ (createConversation conflictListOracle "1" ⟨"7", "1", some "telegram_9"⟩ []).1
        = Except.ok (Json.obj [("id", Json.num 42),
            ("meta", Json.obj [("sender", Json.obj [("additional_attributes",
              Json.obj [("source_id", Json.str "telegram_9")])])])]) := by
  have h1 : (createConversation
      (fun r => if r.method == Method.post then Except.ok (Json.obj [("id", Json.num 42)])
        else Except.ok (Json.arr []))
      "1" ⟨"7", "1", some "telegram_9"⟩ []).1 = Except.ok (Json.obj [("id", Json.num 42)]) := rfl
  have h2 := (createConversation_conflict_search_race "1" "7" "1" "telegram_9").1
    (fun r => if r.method == Method.post then Except.ok (Json.obj [("id", Json.num 42)])
      else Except.ok (Json.arr []))
    conflictRaceOracle (Json.obj [("id", Json.num 42)]) (Json.arr [])
    (Json.arr [Json.obj [("id", Json.num 42)]]) (Json.arr [])
    (Json.obj [("id", Json.num 42)])
    (Json.obj [("id", Json.num 42),
      ("additional_attributes", Json.obj [("source_id", Json.str "telegram_9")])])
    (Json.obj [("message", Json.str "source_id has already been taken")])
    "Unprocessable Entity"
    h1 rfl rfl rfl (by decide) rfl rfl (by decide) rfl rfl rfl (by decide) rfl
  have h3 := (createConversation_conflict_search_race "1" "7" "1" "telegram_9").2
    conflictListOracle (Json.arr [])
    (Json.arr
      [Json.obj [("id", Json.num 41),
        ("contact_inbox", Json.obj [("source_id", Json.str "telegram_8")])],
       Json.obj [("id", Json.num 42),
        ("meta", Json.obj [("sender", Json.obj [("additional_attributes",
          Json.obj [("source_id", Json.str "telegram_9")])])])],
       Json.obj [("id", Json.num 43), ("source_id", Json.str "telegram_9")]])
    (Json.obj [("id", Json.num 41),
      ("contact_inbox", Json.obj [("source_id", Json.str "telegram_8")])])
    (Json.obj [("id", Json.num 42),
      ("meta", Json.obj [("sender", Json.obj [("additional_attributes",
        Json.obj [("source_id", Json.str "telegram_9")])])])])
    (Json.obj [("id", Json.num 43), ("source_id", Json.str "telegram_9")])
    (Json.obj [("error", Json.str "source_id has already been taken")])
    "Unprocessable Entity"
    rfl rfl rfl (by decide) rfl rfl (by decide) (by decide)
  refine ⟨h1, ?_, rfl, ?_⟩
  · rw [h2.1]
  · rw [h3]

end Chatook

namespace Chatook

/-! ## Trace bookkeeping for C7: which requests are contact updates (PUT) -/

/-- The contact-update (PUT) requests of a trace, in order. -/
def putReqs (t : Trace) : Trace := t.filter (fun r => r.method == Method.put)

/-- A computation that issues no PUT request (it may issue others). -/
def PreservesPut {α : Type} (x : M α) : Prop :=
  ∀ t, putReqs ((x t).2) = putReqs t

lemma preservesPut_mPure {α : Type} (a : α) : PreservesPut (mPure a) := fun _ => rfl

lemma preservesPut_mThrow {α : Type} (e : CwErr) : PreservesPut (mThrow (α := α) e) :=
  fun _ => rfl

lemma preservesPut_mBind {α β : Type} (x : M α) (f : α → M β)
    (hx : PreservesPut x) (hf : ∀ a, PreservesPut (f a)) : PreservesPut (mBind x f) := by
  intro t
  unfold mBind
  rcases hxt : x t with ⟨r, t'⟩
  have h1 : putReqs t' = putReqs t := by
    have h := hx t
    rw [hxt] at h
    exact h
  cases r with
  | ok a => exact (hf a t').trans h1
  | error e => exact h1

lemma preservesPut_mCatch {α : Type} (x : M α) (h : CwErr → M α)
    (hx : PreservesPut x) (hh : ∀ e, PreservesPut (h e)) : PreservesPut (mCatch x h) := by
  intro t
  unfold mCatch
  rcases hxt : x t with ⟨r, t'⟩
  have h1 : putReqs t' = putReqs t := by
    have hq := hx t
    rw [hxt] at hq
    exact hq
  cases r with
  | ok a => exact h1
  | error e => exact (hh e t').trans h1

lemma preservesPut_doRequest (o : Oracle) (r : Req)
    (hr : (r.method == Method.put) = false) : PreservesPut (doRequest o r) := by
  intro t
  unfold doRequest
  cases o r <;> simp [putReqs, List.filter_append, hr]

lemma preservesPut_unwrapConversation (resp : Json) : PreservesPut (unwrapConversation resp) := by
  unfold unwrapConversation
  split
  · exact preservesPut_mPure _
  · split
    · exact preservesPut_mPure _
    · split
      · exact preservesPut_mPure _
      · exact preservesPut_mThrow _

lemma preservesPut_findByContactPages (o : Oracle) (acct : String) (inb cid : Option Int) :
    ∀ pages, PreservesPut (findByContactPages o acct inb cid pages) := by
  intro pages
  induction pages with
  | nil => exact preservesPut_mPure _
  | cons page rest ih =>
    unfold findByContactPages
    refine preservesPut_mBind _ _ (preservesPut_doRequest o _ rfl) ?_
    intro list
    dsimp only
    cases hfind : (parseConversations list).find? (matchesContact cid) with
    | some c => exact preservesPut_mPure _
    | none =>
      by_cases he : (parseConversations list).isEmpty
      · simp only [he, if_true]
        exact preservesPut_mPure _
      · simp only [he, if_false]
        exact ih

lemma preservesPut_sourceSearchPages (o : Oracle) (acct : String) (sid : Option String) :
    ∀ pages, PreservesPut (sourceSearchPages o acct sid pages) := by
  intro pages
  induction pages with
  | nil => exact preservesPut_mPure _
  | cons page rest ih =>
    unfold sourceSearchPages
    refine preservesPut_mBind _ _ (preservesPut_doRequest o _ rfl) ?_
    intro list
    dsimp only
    cases hfind : (parseConversations list).find? (matchesSourceId sid) with
    | some c => exact preservesPut_mPure _
    | none =>
      by_cases he : (parseConversations list).isEmpty
      · simp only [he, if_true]
        exact preservesPut_mPure _
      · simp only [he, if_false]
        exact ih

lemma preservesPut_deepScanList (o : Oracle) (acct : String) (sid : Option String) :
    ∀ convs, PreservesPut (deepScanList o acct sid convs) := by
  intro convs
  induction convs with
  | nil => exact preservesPut_mPure _
  | cons c rest ih =>
    unfold deepScanList
    refine preservesPut_mBind _ _ ?_ ?_
    · refine preservesPut_mCatch _ _ ?_ (fun _ => preservesPut_mPure _)
      refine preservesPut_mBind _ _ (preservesPut_doRequest o _ rfl) ?_
      intro detail
      exact preservesPut_mPure _
    · intro r
      cases r with
      | some d => exact preservesPut_mPure _
      | none => exact ih

lemma preservesPut_deepScanPages (o : Oracle) (acct : String) (sid : Option String) :
    ∀ pages, PreservesPut (deepScanPages o acct sid pages) := by
  intro pages
  induction pages with
  | nil => exact preservesPut_mPure _
  | cons page rest ih =>
    unfold deepScanPages
    refine preservesPut_mBind _ _ (preservesPut_doRequest o _ rfl) ?_
    intro list
    dsimp only
    refine preservesPut_mBind _ _ (preservesPut_deepScanList o acct sid _) ?_
    intro r
    cases r with
    | some d => exact preservesPut_mPure _
    | none =>
      by_cases he : (parseConversations list).isEmpty
      · simp only [he, if_true]
        exact preservesPut_mPure _
      · simp only [he, if_false]
        exact ih

lemma preservesPut_contactFilteredSearch (o : Oracle) (acct : String) (cid : Option Int)
    (sid : Option String) : PreservesPut (contactFilteredSearch o acct cid sid) := by
  unfold contactFilteredSearch
  refine preservesPut_mBind _ _ (preservesPut_doRequest o _ rfl) ?_
  intro byContact
  dsimp only
  cases hfind : (parseConversations byContact).find? (matchesSourceId sid) with
  | some c => exact preservesPut_mPure _
  | none => exact preservesPut_deepScanList o acct sid _

lemma preservesPut_conflictSearch (o : Oracle) (acct : String) (cid : Option Int)
    (sid : Option String) : PreservesPut (conflictSearch o acct cid sid) := by
  unfold conflictSearch
  refine preservesPut_mCatch _ _ ?_ (fun _ => preservesPut_mPure _)
  refine preservesPut_mBind _ _ (preservesPut_sourceSearchPages o acct sid _) ?_
  intro r1
  cases r1 with
  | some c => exact preservesPut_mPure _
  | none =>
    refine preservesPut_mBind _ _ (preservesPut_deepScanPages o acct sid _) ?_
    intro r2
    cases r2 with
    | some c => exact preservesPut_mPure _
    | none =>
      exact preservesPut_mCatch _ _ (preservesPut_contactFilteredSearch o acct cid sid)
        (fun _ => preservesPut_mPure _)

lemma preservesPut_fallbackCreate (o : Oracle) (acct : String) (cid inb : Option Int)
    (sid : Option String) : PreservesPut (fallbackCreate o acct cid inb sid) := by
  unfold fallbackCreate
  refine preservesPut_mBind _ _ (preservesPut_doRequest o _ rfl) ?_
  intro resp
  dsimp only
  split
  · exact preservesPut_mPure _
  · exact preservesPut_mPure _

/-- `createConversation` never issues a PUT request. -/
lemma preservesPut_createConversation (o : Oracle) (acct : String) (d : ConvData) :
    PreservesPut (createConversation o acct d) := by
  unfold createConversation
  refine preservesPut_mBind _ _ ?_ ?_
  · exact preservesPut_mCatch _ _ (preservesPut_findByContactPages o acct _ _ _)
      (fun _ => preservesPut_mPure _)
  · intro existing
    cases existing with
    | some c => exact preservesPut_mPure _
    | none =>
      refine preservesPut_mCatch _ _ ?_ ?_
      · exact preservesPut_mBind _ _ (preservesPut_doRequest o _ rfl)
          preservesPut_unwrapConversation
      · intro createErr
        dsimp only
        split
        · refine preservesPut_mBind _ _ (preservesPut_conflictSearch o acct _ _) ?_
          intro r
          cases r with
          | some c => exact preservesPut_mPure _
          | none =>
            refine preservesPut_mBind _ _ ?_ ?_
            · exact preservesPut_mCatch _ _ (preservesPut_fallbackCreate o acct _ _ _)
                (fun _ => preservesPut_mPure _)
            · intro f
              cases f with
              | some c => exact preservesPut_mPure _
              | none => exact preservesPut_mThrow _
        · exact preservesPut_mThrow _

/-- `createMessage` never issues a PUT request. -/
lemma preservesPut_createMessage (o : Oracle) (acct convId content : String)
    (mt : Option String) (pv : Option Bool) :
    PreservesPut (createMessage o acct convId content mt pv) := by
  unfold createMessage
  refine preservesPut_mBind _ _ (preservesPut_doRequest o _ rfl) ?_
  intro resp
  dsimp only
  split
  · exact preservesPut_mPure _
  · split
    · exact preservesPut_mPure _
    · exact preservesPut_mPure _

end Chatook

namespace Chatook

/-! ## C7 equation lemmas -/

lemma jsCoerceTrimmed_strOrNull (s : String) :
    jsCoerceTrimmed (jsOr (Json.str s) Json.null) = mPure (trimJS s) := by
  rcases hb : s.isEmpty with _ | _
  · simp [jsOr, jsTruthy, jsCoerceTrimmed, hb]
  · have hs : s = "" := (String.isEmpty_iff s).mp hb
    subst hs
    rfl

lemma isEmpty_false_of_trim (s : String) (h : (trimJS s).isEmpty = false) :
    s.isEmpty = false := by
  rcases hb : s.isEmpty with _ | _
  · rfl
  · have hs : s = "" := (String.isEmpty_iff s).mp hb
    subst hs
    exact absurd h (by decide)

lemma length_pos_of_isEmpty_false (s : String) (h : s.isEmpty = false) : 0 < s.length := by
  have hne : s ≠ "" := by
    intro he
    subst he
    exact absurd h (by decide)
  have hd : s.data ≠ [] := fun hdd => hne (by rw [show s = String.mk s.data from rfl, hdd])
  exact List.length_pos.mpr hd

/-- `createContact` on a success response that is a direct contact object
(no wrapper, truthy `id`): it returns the object after the single POST. -/
lemma createContact_ok_direct (o : Oracle) (acct : String) (d : ContactData) (r : Json)
    (t : Trace)
    (hreq : o (contactCreateReq acct (contactCreateBody d)) = Except.ok r)
    (h1 : r.get "contact" = Json.null)
    (h2 : r.get "payload" = Json.null)
    (h3 : jsTruthy (r.get "id") = true) :
    createContact o acct d t = (Except.ok r, t ++ [contactCreateReq acct (contactCreateBody d)]) := by
  have hnull : jsTruthy Json.null = false := rfl
  have hnn : ∀ k, Json.get Json.null k = Json.null := fun _ => rfl
  unfold createContact
  simp [mCatch, mBind, mPure, doRequest, unwrapContact, hreq, h1, h2, h3, hnull, hnn]

/-- The trace of a non-blank `updateContact`: exactly one PUT appended,
whatever the remote answers. -/
lemma updateContact_trace (o : Oracle) (acct cid : String) (d : UpdateData) (t : Trace)
    (hne : (updateBody d).isEmpty = false) :
    (updateContact o acct cid d t).2
      = t ++ [contactUpdateReq acct (parseIntJS cid) (Json.obj (updateBody d))] := by
  unfold updateContact
  simp only [hne, Bool.false_eq_true, if_false, mBind, doRequest]
  cases o (contactUpdateReq acct (parseIntJS cid) (Json.obj (updateBody d))) with
  | ok j =>
    dsimp only
    split
    · rfl
    · split
      · rfl
      · rfl
  | error e => rfl

/-- The guarded update block when the live name differs from the stored one
and the phone is not in updatable form: exactly one update call, carrying
the (trimmed) new name and no phone field. -/
lemma contactUpdateStep_update_name (o : Oracle) (acct : String) (contact cidJ : Json)
    (fullName phone curName : String) (t : Trace)
    (hname : contact.get "name" = Json.str curName)
    (hcontact : contact.get "contact" = Json.null)
    (hphone : contact.get "phone_number" = Json.null)
    (hde : (trimJS fullName).isEmpty = false)
    (hdiff : (trimJS fullName != trimJS curName) = true)
    (hph : startsWithJS (trimJS phone) "+" = false) :
    contactUpdateStep o acct contact cidJ fullName phone t
      = (Except.ok (),
         t ++ [contactUpdateReq acct (parseIntJS (jsToString cidJ))
           (Json.obj [("name", Json.str (trimJS fullName))])]) := by
  have hF : fullName.isEmpty = false := isEmpty_false_of_trim _ hde
  have hlen : 0 < (trimJS fullName).length := length_pos_of_isEmpty_false _ hde
  have hb : updateBody ⟨some fullName, none⟩ = [("name", Json.str (trimJS fullName))] := by
    simp [updateBody, hlen]
  have hbne : (updateBody ⟨some fullName, none⟩).isEmpty = false := by simp [hb]
  have htr := updateContact_trace o acct (jsToString cidJ) ⟨some fullName, none⟩ t hbne
  rw [hb] at htr
  unfold contactUpdateStep
  rw [hname, hcontact, hphone]
  simp only [Json.get, jsCoerceTrimmed_strOrNull]
  have hpn : jsCoerceTrimmed (jsOr Json.null Json.null) = mPure "" := rfl
  simp only [hpn, mBind, mPure, hF, hde, hdiff, hph, Bool.not_false, Bool.true_and,
    Bool.and_true, Bool.and_false, Bool.true_or, Bool.or_false, if_true, mCatch]
  rcases hu : updateContact o acct (jsToString cidJ) ⟨some fullName, none⟩ t with ⟨ur, ut⟩
  have hut : ut = t ++ [contactUpdateReq acct (parseIntJS (jsToString cidJ))
      (Json.obj [("name", Json.str (trimJS fullName))])] := by
    rw [hu] at htr
    exact htr
  cases ur with
  | ok a => simp [hu, hut]
  | error e => simp [hu, hut]

/-- The guarded update block when the live name equals the stored one (after
trimming) and the phone is not in updatable form: no update call at all. -/
lemma contactUpdateStep_no_update (o : Oracle) (acct : String) (contact cidJ : Json)
    (fullName phone curName : String) (t : Trace)
    (hname : contact.get "name" = Json.str curName)
    (hcontact : contact.get "contact" = Json.null)
    (hphone : contact.get "phone_number" = Json.null)
    (hEq : trimJS fullName = trimJS curName)
    (hph : startsWithJS (trimJS phone) "+" = false) :
    contactUpdateStep o acct contact cidJ fullName phone t = (Except.ok (), t) := by
  unfold contactUpdateStep
  rw [hname, hcontact, hphone]
  simp only [Json.get, jsCoerceTrimmed_strOrNull]
  have hpn : jsCoerceTrimmed (jsOr Json.null Json.null) = mPure "" := rfl
  simp [hpn, mBind, mPure, mCatch, hEq, hph, bne_self_eq_false]

end Chatook


namespace Chatook

/-! ## C7 -/

/-- C7: forwarding an inbound message for a sender whose stored contact name
differs from the live profile name while the phone is not in updatable
(`+`-prefixed) form issues exactly one contact update call (the only PUT of
the whole forward), carrying the new name and no `phone_number` field; when
the name matches the stored value too, no update call is made at all. -/
theorem forwardToCharwoot_update_policy (o : Oracle)
    (acct inboxId senderId username firstName lastName phone text curName : String) (r : Json)
    (hreq : o (contactCreateReq acct (contactCreateBody
        ⟨some (fullNameOf firstName lastName username),
         if phone.isEmpty then none else some phone,
         some ("telegram_" ++ senderId)⟩)) = Except.ok r)
    (h1 : r.get "contact" = Json.null)
    (h2 : r.get "payload" = Json.null)
    (h3 : jsTruthy (r.get "id") = true)
    (hname : r.get "name" = Json.str curName)
    (hphone : r.get "phone_number" = Json.null)
    (hph : startsWithJS (trimJS phone) "+" = false) :
    ((trimJS (fullNameOf firstName lastName username)).isEmpty = false →
     (trimJS (fullNameOf firstName lastName username) != trimJS curName) = true →
     putReqs ((forwardToCharwoot o acct inboxId senderId username firstName lastName phone text) []).2
       = [contactUpdateReq acct (parseIntJS (jsToString (r.get "id")))
           (Json.obj [("name", Json.str (trimJS (fullNameOf firstName lastName username)))])])
    ∧ (trimJS (fullNameOf firstName lastName username) = trimJS curName →
     putReqs ((forwardToCharwoot o acct inboxId senderId username firstName lastName phone text) []).2
       = []) := by
  have mpp : (Method.post == Method.put) = false := rfl
  have mpu : (Method.put == Method.put) = true := rfl
  have hcc := createContact_ok_direct o acct
    ⟨some (fullNameOf firstName lastName username),
     if phone.isEmpty then none else some phone,
     some ("telegram_" ++ senderId)⟩ r [] hreq h1 h2 h3
  have hcid : jsOr (r.get "id") (jsOr (r.get "contact_id") ((r.get "contact").get "id"))
      = r.get "id" := by
    simp [jsOr, h3]
  constructor
  · intro hde hdiff
    have hstep := contactUpdateStep_update_name o acct r (r.get "id")
      (fullNameOf firstName lastName username) phone curName
      [contactCreateReq acct (contactCreateBody
        ⟨some (fullNameOf firstName lastName username),
         if phone.isEmpty then none else some phone,
         some ("telegram_" ++ senderId)⟩)]
      hname h1 hphone hde hdiff hph
    have htar : putReqs
        [contactCreateReq acct (contactCreateBody
          ⟨some (fullNameOf firstName lastName username),
           if phone.isEmpty then none else some phone,
           some ("telegram_" ++ senderId)⟩),
         contactUpdateReq acct (parseIntJS (jsToString (r.get "id")))
           (Json.obj [("name", Json.str (trimJS (fullNameOf firstName lastName username)))])]
        = [contactUpdateReq acct (parseIntJS (jsToString (r.get "id")))
            (Json.obj [("name", Json.str (trimJS (fullNameOf firstName lastName username)))])] := by
      simp [putReqs, contactCreateReq, contactUpdateReq, mpp, mpu]
    unfold forwardToCharwoot
    simp only [mBind, hcc, List.nil_append, hcid, h3, Bool.not_true, Bool.false_eq_true,
      if_false, hstep, List.cons_append]
    rcases hcv : createConversation o acct
        ⟨jsToString (r.get "id"), inboxId, some ("telegram_" ++ senderId)⟩
        [contactCreateReq acct (contactCreateBody
          ⟨some (fullNameOf firstName lastName username),
           if phone.isEmpty then none else some phone,
           some ("telegram_" ++ senderId)⟩),
         contactUpdateReq acct (parseIntJS (jsToString (r.get "id")))
           (Json.obj [("name", Json.str (trimJS (fullNameOf firstName lastName username)))])]
      with ⟨rr, t2⟩
    have hpp : putReqs t2 = putReqs
        [contactCreateReq acct (contactCreateBody
          ⟨some (fullNameOf firstName lastName username),
           if phone.isEmpty then none else some phone,
           some ("telegram_" ++ senderId)⟩),
         contactUpdateReq acct (parseIntJS (jsToString (r.get "id")))
           (Json.obj [("name", Json.str (trimJS (fullNameOf firstName lastName username)))])] := by
      have h := preservesPut_createConversation o acct
        ⟨jsToString (r.get "id"), inboxId, some ("telegram_" ++ senderId)⟩
        [contactCreateReq acct (contactCreateBody
          ⟨some (fullNameOf firstName lastName username),
           if phone.isEmpty then none else some phone,
           some ("telegram_" ++ senderId)⟩),
         contactUpdateReq acct (parseIntJS (jsToString (r.get "id")))
           (Json.obj [("name", Json.str (trimJS (fullNameOf firstName lastName username)))])]
      rw [hcv] at h
      exact h
    cases rr with
    | error e => exact hpp.trans htar
    | ok conv =>
      rcases hj : jsTruthy (jsOr (conv.get "id") (conv.get "conversation_id")) with _ | _
      · simp only [hj, Bool.not_false, if_true]
        exact hpp.trans htar
      · simp only [hj, Bool.not_true, Bool.false_eq_true, if_false, mBind]
        rcases hcm : createMessage o acct
            (jsToString (jsOr (conv.get "id") (conv.get "conversation_id")))
            text (some "incoming") none t2 with ⟨rm, t3⟩
        have hp3 : putReqs t3 = putReqs t2 := by
          have h := preservesPut_createMessage o acct
            (jsToString (jsOr (conv.get "id") (conv.get "conversation_id")))
            text (some "incoming") none t2
          rw [hcm] at h
          exact h
        cases rm with
        | ok a => exact hp3.trans (hpp.trans htar)
        | error e => exact hp3.trans (hpp.trans htar)
  · intro hEq
    have hstep := contactUpdateStep_no_update o acct r (r.get "id")
      (fullNameOf firstName lastName username) phone curName
      [contactCreateReq acct (contactCreateBody
        ⟨some (fullNameOf firstName lastName username),
         if phone.isEmpty then none else some phone,
         some ("telegram_" ++ senderId)⟩)]
      hname h1 hphone hEq hph
    have htar : putReqs
        [contactCreateReq acct (contactCreateBody
          ⟨some (fullNameOf firstName lastName username),
           if phone.isEmpty then none else some phone,
           some ("telegram_" ++ senderId)⟩)] = [] := by
      simp [putReqs, contactCreateReq, mpp]
    unfold forwardToCharwoot
    simp only [mBind, hcc, List.nil_append, hcid, h3, Bool.not_true, Bool.false_eq_true,
      if_false, hstep]
    rcases hcv : createConversation o acct
        ⟨jsToString (r.get "id"), inboxId, some ("telegram_" ++ senderId)⟩
        [contactCreateReq acct (contactCreateBody
          ⟨some (fullNameOf firstName lastName username),
           if phone.isEmpty then none else some phone,
           some ("telegram_" ++ senderId)⟩)]
      with ⟨rr, t2⟩
    have hpp : putReqs t2 = putReqs
        [contactCreateReq acct (contactCreateBody
          ⟨some (fullNameOf firstName lastName username),
           if phone.isEmpty then none else some phone,
           some ("telegram_" ++ senderId)⟩)] := by
      have h := preservesPut_createConversation o acct
        ⟨jsToString (r.get "id"), inboxId, some ("telegram_" ++ senderId)⟩
        [contactCreateReq acct (contactCreateBody
          ⟨some (fullNameOf firstName lastName username),
           if phone.isEmpty then none else some phone,
           some ("telegram_" ++ senderId)⟩)]
      rw [hcv] at h
      exact h
    cases rr with
    | error e => exact hpp.trans htar
    | ok conv =>
      rcases hj : jsTruthy (jsOr (conv.get "id") (conv.get "conversation_id")) with _ | _
      · simp only [hj, Bool.not_false, if_true]
        exact hpp.trans htar
      · simp only [hj, Bool.not_true, Bool.false_eq_true, if_false, mBind]
        rcases hcm : createMessage o acct
            (jsToString (jsOr (conv.get "id") (conv.get "conversation_id")))
            text (some "incoming") none t2 with ⟨rm, t3⟩
        have hp3 : putReqs t3 = putReqs t2 := by
          have h := preservesPut_createMessage o acct
            (jsToString (jsOr (conv.get "id") (conv.get "conversation_id")))
            text (some "incoming") none t2
          rw [hcm] at h
          exact h
        cases rm with
        | ok a => exact hp3.trans (hpp.trans htar)
        | error e => exact hp3.trans (hpp.trans htar)

/-- Witness for C7 at a concrete remote whose stored contact is named
"John": live name "John Doe" issues exactly one name-only update; live name
"John" issues none. -/
theorem forwardToCharwoot_update_policy_witness :
    putReqs ((forwardToCharwoot
        (fun _ => Except.ok (Json.obj [("id", Json.num 7), ("name", Json.str "John")]))
        "1" "1" "9" "jd" "John" "Doe" "" "hi") []).2
      = [contactUpdateReq "1" (some 7) (Json.obj [("name", Json.str "John Doe")])]
    ∧ putReqs ((forwardToCharwoot
        (fun _ => Except.ok (Json.obj [("id", Json.num 7), ("name", Json.str "John")]))
        "1" "1" "9" "" "John" "" "" "hi") []).2 = [] := by
  constructor
  · exact (forwardToCharwoot_update_policy
      (fun _ => Except.ok (Json.obj [("id", Json.num 7), ("name", Json.str "John")]))
      "1" "1" "9" "jd" "John" "Doe" "" "hi" "John"
      (Json.obj [("id", Json.num 7), ("name", Json.str "John")])
      rfl rfl rfl (by decide) rfl rfl (by decide)).1 (by decide) (by decide)
  · exact (forwardToCharwoot_update_policy
      (fun _ => Except.ok (Json.obj [("id", Json.num 7), ("name", Json.str "John")]))
      "1" "1" "9" "" "John" "" "" "hi" "John"
      (Json.obj [("id", Json.num 7), ("name", Json.str "John")])
      rfl rfl rfl (by decide) rfl rfl (by decide)).2 (by decide)

end Chatook
